import Mathlib

/-!
# simple-auth-service: the identity orchestrator

A shallow embedding of `internal/services/user_service.go` together with the parts of
`internal/models/user.go`, `internal/repositories/user_repo.go`, `internal/errcode/errcode.go`,
`pkg/app_errors/app_error.go` and `pkg/tokens/verification/otp.go` that it runs through.

Conventions of the embedding

* A Go `string` is a Lean `String`; `len(s)` is `s.utf8ByteSize`.
* A Go `error` is a value of `GoError`; `nil` is `none` in `Option GoError`.
* The five collaborators of `UserService` are Go interfaces; here they are records of
  functions over an arbitrary world state `σ` that is threaded through every call.
* Every call the service makes on a collaborator is appended to a call log, so that
  "is never called" and "is called exactly once with" are statements about that log.
* `RunAsync(fn)` records the closure as an `AsyncTask`; `services.runTask` is its body.
-/

namespace SimpleAuth

/-! ## Go values -/

/-- One byte of a Go `[]byte`. -/
abbrev Byte := Fin 256

/-- The unit of `time.Duration` is the nanosecond. -/
def Second : Nat := 1000000000

/-- The constant `time.Millisecond`. -/
def Millisecond : Nat := 1000000

/-- The constant `time.Minute`. -/
def Minute : Nat := 60 * Second

/-- The constant `time.Hour`. -/
def Hour : Nat := 60 * Minute

/-- A `context.Context`, reduced to what the service decides about it: `context.Background()`
has no deadline, `context.WithTimeout(context.Background(), d)` has the timeout `d`. -/
structure Context where
  timeout : Option Nat
deriving DecidableEq, Repr

/-- The value `context.Background()`. -/
def Context.Background : Context := ⟨none⟩

/-- The value `context.WithTimeout(context.Background(), d)`. -/
def Context.WithTimeout (d : Nat) : Context := ⟨some d⟩

/-- Package-level error values that the code compares against with `errors.Is`. -/
inductive Sentinel
  | ErrDuplicateEmail
  | ErrNotFound
  | pgxErrNoRows
  | bcryptErrMismatchedHashAndPassword
  | ErrInvalidToken
  | ErrExpiredToken
  | ErrInvalidSecretKeySizePaseto
  | ErrInvalidSecretKeySizeJWT
deriving DecidableEq, Repr

/-- Go error values, with the `Unwrap` chain that `errors.Is` and `errors.As` follow. -/
inductive GoError
  /-- one of the package-level values of `Sentinel` -/
  | sentinel (s : Sentinel)
  /-- a fresh `errors.New(msg)`, or any other error without `Unwrap` -/
  | errorNew (msg : String)
  /-- the error `fmt.Errorf("%v", v.Errors)`: its text prints the validator's map -/
  | validation (errors : List (String × String))
  /-- the error `fmt.Errorf(msg + ": %w", inner)` -/
  | wrapf (msg : String) (inner : GoError)
  /-- a `*pgconn.PgError` with its SQLSTATE code -/
  | pgError (code : String)
  /-- an `*app_errors.AppError` with fields `Code` and `Err` -/
  | appError (code : String) (inner : GoError)
deriving DecidableEq, Repr

/-- The call `errors.Is(err, target)` for a package-level target. -/
def errorsIs : GoError → Sentinel → Bool
  | .sentinel s, t => s == t
  | .wrapf _ inner, t => errorsIs inner t
  | .appError _ inner, t => errorsIs inner t
  | _, _ => false

/-- The call `errors.As(err, &pgErr)` with `pgErr *pgconn.PgError`: the code of the first
`PgError` in the chain. -/
def errorsAsPgError : GoError → Option String
  | .pgError code => some code
  | .wrapf _ inner => errorsAsPgError inner
  | .appError _ inner => errorsAsPgError inner
  | _ => none

namespace app_errors

/-- The constructor `NewAppError(code, err)`. -/
def NewAppError (code : String) (err : GoError) : GoError := .appError code err

/-- The function `IsAppError(err)`: the type assertion `err.(*AppError)`. -/
def IsAppError : GoError → Bool
  | .appError _ _ => true
  | _ => false

/-- The field `Code` of an error that is an `*AppError`. -/
def Code : GoError → Option String
  | .appError code _ => some code
  | _ => none

end app_errors

namespace errcode

def ErrInvalidRequest : String := "invalid_request"
def ErrUnauthorized : String := "unauthorized"
def ErrForbidden : String := "forbidden"
def ErrNotFound : String := "not_found"
def ErrConflict : String := "conflict"
def ErrInternal : String := "internal_error"
def ErrEmailAlreadyExists : String := "email_already_exists"
def ErrAccountCreated : String := "account_created"
def ErrOTPNotFound : String := "otp_not_found"
def ErrOTPInvalid : String := "invalid_otp"
def ErrInvalidPassword : String := "invalid_password"
def ErrLoginRedirect : String := "login_redirect"

/-- The twelve constants of the `const` block of `errcode.go`, in order. -/
def declared : List String :=
  [ErrInvalidRequest, ErrUnauthorized, ErrForbidden, ErrNotFound, ErrConflict, ErrInternal,
   ErrEmailAlreadyExists, ErrAccountCreated, ErrOTPNotFound, ErrOTPInvalid, ErrInvalidPassword,
   ErrLoginRedirect]

/-- The map `errorMessages`, entry by entry in the order of the source; a Go map lookup is the
lookup of the key in this list. -/
def errorMessages : List (String × String) :=
  [(ErrInvalidRequest, "The request is invalid or malformed"),
   (ErrUnauthorized, "Missing or invalid authentication credentials"),
   (ErrForbidden, "You do not have permission to access this resource"),
   (ErrNotFound, "The requested resource was not found"),
   (ErrConflict, "A resource conflict occurred (e.g., duplicate data)"),
   (ErrInternal, "An unexpected server error occurred"),
   (ErrEmailAlreadyExists,
     "A user with this email already exists. Please try a different email."),
   (ErrAccountCreated,
     "An account was created, but email with activation code was not sent. Please, contact support."),
   (ErrOTPNotFound, "For this user code was not found. Please try again."),
   (ErrOTPInvalid, "The code you provided is invalid"),
   (ErrInvalidPassword, "The password you provided is incorrect")]

/-- The function `GetErrorMessage`. -/
def GetErrorMessage (errorCode : String) : String :=
  match errorMessages.lookup errorCode with
  | some msg => msg
  | none => "Unexpected error"

end errcode

/-- A tagged error: an `*AppError` whose `Code` is a constant declared in `errcode`. -/
def isTagged (err : GoError) : Prop :=
  ∃ code inner, err = GoError.appError code inner ∧ code ∈ errcode.declared

/-! ## The validator -/

namespace validator

/-- Modelled from the spec: package `pkg/validator` (type `Validator` with `New`, `Check`,
`Valid` and the field `Errors`) is imported by `models/user.go` and `user_service.go` but is
not among the sources. A validator collects the violated rules, "fails `InvalidRequest` if any
rule is violated": `Errors` maps a field to a message, `Check(ok, key, message)` records the
message when `ok` is false and the key has none yet, and `Valid()` holds when nothing was
recorded. -/
structure Validator where
  Errors : List (String × String)
deriving DecidableEq, Repr

/-- The constructor `validator.New()`. -/
def New : Validator := ⟨[]⟩

/-- The method `Valid()`: `len(v.Errors) == 0`. -/
def Validator.Valid (v : Validator) : Bool := v.Errors.isEmpty

/-- The method `AddError(key, message)`: the first message of a key is kept. -/
def Validator.AddError (v : Validator) (key message : String) : Validator :=
  if v.Errors.any (fun e => e.1 == key) then v else ⟨v.Errors ++ [(key, message)]⟩

/-- The method `Check(ok, key, message)`. -/
def Validator.Check (v : Validator) (ok : Bool) (key message : String) : Validator :=
  if ok then v else v.AddError key message

end validator

/-! ## Package `models` -/

namespace models

/-- The struct `Password`: a transient plaintext (`*string`) and the hash (`[]byte`, `nil` when
absent). -/
structure Password where
  plaintext : Option String
  Hash : Option (List Byte)
deriving DecidableEq, Repr

/-- The struct `User`; a `time.Time` is a number, the zero time being `0`. -/
structure User where
  UserID : Int
  FirstName : String
  LastName : String
  Email : String
  Password : Password
  CreatedAt : Int
  UpdatedAt : Int
  Active : Bool
  DeletedAt : Int
  Activated : Bool
deriving DecidableEq, Repr

/-- The zero value `models.User{}`. -/
def User.zero : User :=
  { UserID := 0, FirstName := "", LastName := "", Email := "", Password := ⟨none, none⟩,
    CreatedAt := 0, UpdatedAt := 0, Active := false, DeletedAt := 0, Activated := false }

end models

open models validator

/-! ## Library functions and collaborators -/

/-- The library functions the code calls that are not part of the repository. -/
structure Externals (σ : Type) where
  /-- the call `bcrypt.GenerateFromPassword([]byte(p), cost)`; it draws a salt -/
  bcryptGenerateFromPassword : String → Nat → σ → Except GoError (List Byte) × σ
  /-- the call `bcrypt.CompareHashAndPassword(hash, []byte(p))` -/
  bcryptCompareHashAndPassword : Option (List Byte) → String → Option GoError
  /-- the call `rand.Read(b)` on `b := make([]byte, 3)` -/
  randRead3 : σ → Except GoError (Byte × Byte × Byte) × σ
  /-- the call `validator.Matches(email, validator.EmailRX)`; the pattern is not among the
  sources -/
  emailRX : String → Bool

/-- The `map[string]interface{}` handed to `SendMail`: keys `activationToken` and `userID`. -/
structure MailData where
  activationToken : String
  userID : Int
deriving DecidableEq, Repr

/-- The interface `UserRepo`. `CreateUser` takes a pointer: it returns the user as the call
left it, next to the error. -/
structure UserRepo (σ : Type) where
  CreateUser : User → σ → (Option GoError × User) × σ
  ActivateUser : String → σ → Except GoError User × σ
  GetUserIDByEmail : String → σ → Except GoError Int × σ
  GetUserByEmail : String → σ → Except GoError User × σ

/-- The interface `EmailSender`. -/
structure EmailSender (σ : Type) where
  SendMail : String → String → MailData → σ → Option GoError × σ

/-- The interface `RedisClient`. -/
structure RedisClient (σ : Type) where
  Set : Context → String → String → Nat → σ → Option GoError × σ
  Get : Context → String → σ → Except GoError String × σ
  Del : Context → String → σ → Option GoError × σ

/-- The interface `TokenMaker`, method `CreateToken`. `UserSignIn` returns both of its results
unchanged, so it keeps Go's pair of a string and an error. -/
structure TokenMaker (σ : Type) where
  CreateToken : String → Nat → σ → (String × Option GoError) × σ

/-- The closures handed to `RunAsync`, with the values they capture. -/
inductive AsyncTask
  /-- the closure of `VerifyUser`: `s.redisClient.Del(context.Background(), key)` -/
  | delActivation (key : String)
  /-- the closure of `RegisterUser` and `ResendCode`:
  `s.userAdapter.SendMail(recipient, "user_welcome.tmpl", data)`. In `RegisterUser` the closure
  reads `user.Email` and `user.UserID` through the pointer when it runs; the handler does not
  write to the user once the call has returned, so they are the values at scheduling time -/
  | sendWelcome (recipient : String) (otp : String) (userID : Int)
deriving DecidableEq, Repr

/-- A call of the service on one of its collaborators. -/
inductive Call
  | repoCreateUser (user : User)
  | repoActivateUser (email : String)
  | repoGetUserIDByEmail (email : String)
  | repoGetUserByEmail (email : String)
  | redisSet (ctx : Context) (key value : String) (ttl : Nat)
  | redisGet (ctx : Context) (key : String)
  | redisDel (ctx : Context) (key : String)
  | createToken (username : String) (duration : Nat)
  | sendMail (recipient templateFile : String) (data : MailData)
  | runAsync (task : AsyncTask)
deriving DecidableEq, Repr

/-- The struct `UserService`; the field `asyncRunner` is the `runAsync` entry of the log. -/
structure UserService (σ : Type) where
  userRepository : UserRepo σ
  userAdapter : EmailSender σ
  redisClient : RedisClient σ
  tokenMaker : TokenMaker σ

/-- What a run of a service method leaves: the returned values, the world, the call log. -/
structure Outcome (σ α : Type) where
  ret : α
  world : σ
  calls : List Call

/-! ## Package `models`: credential and field rules -/

namespace models

/-- The method `(*Password).Set`: the receiver is changed only when hashing succeeds. -/
def Password.Set {σ : Type} (x : Externals σ) (p : Password) (plaintextPassword : String)
    (w : σ) : (Option GoError × Password) × σ :=
  match x.bcryptGenerateFromPassword plaintextPassword 12 w with
  | (.error err, w1) => ((some err, p), w1)
  | (.ok hash, w1) => ((none, { plaintext := some plaintextPassword, Hash := some hash }), w1)

/-- The method `(*Password).Matches`. -/
def Password.Matches {σ : Type} (x : Externals σ) (p : Password) (plaintextPassword : String) :
    Bool × Option GoError :=
  match x.bcryptCompareHashAndPassword p.Hash plaintextPassword with
  | some err =>
    if errorsIs err .bcryptErrMismatchedHashAndPassword then (false, none) else (false, some err)
  | none => (true, none)

/-- The function `ValidateEmail`. -/
def ValidateEmail {σ : Type} (x : Externals σ) (v : Validator) (email : String) : Validator :=
  let v := v.Check (email != "") "email" "must be provided"
  v.Check (x.emailRX email) "email" "must be a valid email address"

/-- The function `ValidatePasswordPlaintext`. -/
def ValidatePasswordPlaintext (v : Validator) (password : String) : Validator :=
  let v := v.Check (password != "") "password" "must be provided"
  let v := v.Check (decide (password.utf8ByteSize ≥ 8)) "password" "must be at least 8 bytes long"
  v.Check (decide (password.utf8ByteSize ≤ 72)) "password" "must not be more than 72 bytes long"

/-- The function `ValidateUser`; `none` is the `panic("missing password hash for user")`. -/
def ValidateUser {σ : Type} (x : Externals σ) (v : Validator) (user : User) : Option Validator :=
  let v := v.Check (user.FirstName != "") "name" "must be provided"
  let v := v.Check (decide (user.FirstName.utf8ByteSize ≤ 50)) "name"
    "must not be more than 50 bytes long"
  let v := v.Check (user.LastName != "") "name" "must be provided"
  let v := v.Check (decide (user.LastName.utf8ByteSize ≤ 50)) "name"
    "must not be more than 50 bytes long"
  let v := ValidateEmail x v user.Email
  let v := match user.Password.plaintext with
    | some plaintext => ValidatePasswordPlaintext v plaintext
    | none => v
  match user.Password.Hash with
  | none => none
  | some _ => some v

end models

/-! ## Package `verification` -/

namespace verification

/-- The call `fmt.Sprintf("%06d", n)` on an unsigned number: its decimal digits, filled with
zeros on the left up to six characters. -/
def sprintf06d (n : Nat) : String :=
  let digits := Nat.toDigits 10 n
  String.mk (List.replicate (6 - digits.length) '0' ++ digits)

/-- The number `GenerateOTP` formats, from the three bytes read (`uint32` arithmetic). -/
def codeNum (b0 b1 b2 : Byte) : Nat :=
  let num := ((b0.val <<< 16) % 2 ^ 32) ||| ((b1.val <<< 8) % 2 ^ 32) ||| b2.val
  num % 1000000

/-- The function `GenerateOTP`. -/
def GenerateOTP {σ : Type} (x : Externals σ) (w : σ) : Except GoError String × σ :=
  match x.randRead3 w with
  | (.error err, w1) => (.error (.wrapf "cannot generate random bytes" err), w1)
  | (.ok (b0, b1, b2), w1) => (.ok (sprintf06d (codeNum b0 b1 b2)), w1)

/-- The character of the decimal digit `d`, for `d < 10`. -/
def decimalDigit (d : Nat) : Char := Char.ofNat (48 + d)

/-- The decimal representation of a number below one million, left-padded with zeros to six
characters: its six decimal digits, from the hundred-thousands to the units. This follows the
words of the specification, not the code. -/
def decimal6 (n : Nat) : String :=
  String.mk [decimalDigit (n / 100000 % 10), decimalDigit (n / 10000 % 10),
    decimalDigit (n / 1000 % 10), decimalDigit (n / 100 % 10), decimalDigit (n / 10 % 10),
    decimalDigit (n % 10)]

/-- The code the specification gives for three random bytes: the six-character decimal
representation of `(b0 * 65536 + b1 * 256 + b2) mod 1000000`. -/
def otpOfBytes (b0 b1 b2 : Byte) : String :=
  decimal6 ((b0.val * 65536 + b1.val * 256 + b2.val) % 1000000)

/-- The number of the `2 ^ 24` byte triples on which `GenerateOTP` returns the six-digit code
of `c`. -/
def preimages (c : Nat) : Nat :=
  ((Finset.univ : Finset (Byte × Byte × Byte)).filter
    (fun t => sprintf06d (codeNum t.1 t.2.1 t.2.2) = decimal6 c)).card

/-- The `k` lowest decimal digits of `n` as characters, highest first. -/
def fixedDigits : Nat → Nat → List Char
  | 0, _ => []
  | k + 1, n => fixedDigits k (n / 10) ++ [Nat.digitChar (n % 10)]

end verification

/-! ## Package `repositories`: `UserModel` over the connection pool -/

namespace repositories

/-- The pool `*postgres.Postgres`, one function per statement of `user_repo.go`: each is
`Pool.QueryRow(ctx, query, args...)` followed by `Scan`, and yields the columns the statement
names, or the error of `Scan`. -/
structure Postgres (σ : Type) where
  /-- the statement `INSERT INTO users (first_name, last_name, email, password_hash)
  VALUES ($1, $2, $3, $4) RETURNING user_id, created_at` -/
  insertUser : Context → String → String → String → Option (List Byte) → σ →
    Except GoError (Int × Int) × σ
  /-- the statement `UPDATE users SET activated=true WHERE email=$1
  RETURNING user_id, first_name, last_name, created_at, activated` -/
  activateByEmail : Context → String → σ → Except GoError (Int × String × String × Int × Bool) × σ
  /-- the statement `SELECT user_id FROM users WHERE email=$1` -/
  selectIDByEmail : Context → String → σ → Except GoError Int × σ
  /-- the statement `SELECT user_id, first_name, last_name, email, password_hash, active,
  activated FROM users WHERE email = $1` -/
  selectByEmail : Context → String → σ →
    Except GoError (Int × String × String × String × Option (List Byte) × Bool × Bool) × σ

/-- The method `(*UserModel).CreateUser`. -/
def CreateUser {σ : Type} (pg : Postgres σ) (user : User) (w : σ) : (Option GoError × User) × σ :=
  match pg.insertUser (Context.WithTimeout (3 * Second)) user.FirstName user.LastName user.Email
      user.Password.Hash w with
  | (.error err, w1) =>
    if errorsAsPgError err = some "23505" then ((some (.sentinel .ErrDuplicateEmail), user), w1)
    else ((some err, user), w1)
  | (.ok (userID, createdAt), w1) =>
    ((none, { user with UserID := userID, CreatedAt := createdAt }), w1)

/-- The method `(*UserModel).ActivateUser`: `Scan` fills the five fields the statement returns
of a fresh `var user models.User`. -/
def ActivateUser {σ : Type} (pg : Postgres σ) (email : String) (w : σ) : Except GoError User × σ :=
  match pg.activateByEmail (Context.WithTimeout (3 * Second)) email w with
  | (.error err, w1) => (.error err, w1)
  | (.ok (userID, firstName, lastName, createdAt, activated), w1) =>
    (.ok { User.zero with UserID := userID, FirstName := firstName, LastName := lastName,
                          CreatedAt := createdAt, Activated := activated }, w1)

/-- The method `(*UserModel).GetUserIDByEmail`. -/
def GetUserIDByEmail {σ : Type} (pg : Postgres σ) (email : String) (w : σ) :
    Except GoError Int × σ :=
  match pg.selectIDByEmail (Context.WithTimeout (3 * Second)) email w with
  | (.error err, w1) =>
    if errorsIs err .pgxErrNoRows then (.error (.sentinel .ErrNotFound), w1) else (.error err, w1)
  | (.ok userID, w1) => (.ok userID, w1)

/-- The method `(*UserModel).GetUserByEmail`. -/
def GetUserByEmail {σ : Type} (pg : Postgres σ) (email : String) (w : σ) :
    Except GoError User × σ :=
  match pg.selectByEmail (Context.WithTimeout (3 * Second)) email w with
  | (.error err, w1) =>
    if errorsIs err .pgxErrNoRows then (.error (.sentinel .ErrNotFound), w1) else (.error err, w1)
  | (.ok (userID, firstName, lastName, email1, hash, active, activated), w1) =>
    (.ok { User.zero with UserID := userID, FirstName := firstName, LastName := lastName,
                          Email := email1, Password := ⟨none, hash⟩, Active := active,
                          Activated := activated }, w1)

/-- The value `NewUserRepo(db)` seen through the interface `UserRepo`. -/
def NewUserRepo {σ : Type} (pg : Postgres σ) : UserRepo σ :=
  { CreateUser := CreateUser pg, ActivateUser := ActivateUser pg,
    GetUserIDByEmail := GetUserIDByEmail pg, GetUserByEmail := GetUserByEmail pg }

end repositories

/-! ## Package `services`: the orchestrator -/

namespace services

open app_errors

/-- How `RegisterUser` ends: it returns an error value (`nil` on success), or `ValidateUser`
panics. -/
inductive RegisterRet
  | returned (err : Option GoError)
  | panicked
deriving DecidableEq, Repr

/-- The key `"activation:" + email` of a pending verification. -/
def activationKey (email : String) : String := "activation:" ++ email

/-- The method `(*UserService).RegisterUser`. The result carries the user behind the pointer as
the call left it. -/
def RegisterUser {σ : Type} (s : UserService σ) (x : Externals σ) (user : User)
    (password : String) (w : σ) : Outcome σ (RegisterRet × User) :=
  match Password.Set x user.Password password w with
  | ((some err, _), w1) =>
    ⟨(.returned (some (.wrapf "RegisterUser: user.Password.Set" err)), user), w1, []⟩
  | ((none, pw), w1) =>
    let user := { user with Password := pw }
    match ValidateUser x validator.New user with
    | none => ⟨(.panicked, user), w1, []⟩
    | some v =>
      if !v.Valid then
        ⟨(.returned (some (NewAppError errcode.ErrInvalidRequest (.validation v.Errors))), user),
          w1, []⟩
      else
        match s.userRepository.CreateUser user w1 with
        | ((some err, user1), w2) =>
          if errorsIs err .ErrDuplicateEmail then
            ⟨(.returned (some (NewAppError errcode.ErrEmailAlreadyExists err)), user1), w2,
              [.repoCreateUser user]⟩
          else
            ⟨(.returned (some (NewAppError errcode.ErrInternal err)), user1), w2,
              [.repoCreateUser user]⟩
        | ((none, user1), w2) =>
          match verification.GenerateOTP x w2 with
          | (.error err, w3) =>
            ⟨(.returned (some (NewAppError errcode.ErrAccountCreated err)), user1), w3,
              [.repoCreateUser user]⟩
          | (.ok otp, w3) =>
            let ctx := Context.WithTimeout (2 * Second)
            match s.redisClient.Set ctx (activationKey user1.Email) otp (15 * Minute) w3 with
            | (some err, w4) =>
              ⟨(.returned (some (NewAppError errcode.ErrAccountCreated err)), user1), w4,
                [.repoCreateUser user,
                 .redisSet ctx (activationKey user1.Email) otp (15 * Minute)]⟩
            | (none, w4) =>
              ⟨(.returned none, user1), w4,
                [.repoCreateUser user,
                 .redisSet ctx (activationKey user1.Email) otp (15 * Minute),
                 .runAsync (.sendWelcome user1.Email otp user1.UserID)]⟩

/-- The method `(*UserService).VerifyUser`. -/
def VerifyUser {σ : Type} (s : UserService σ) (x : Externals σ) (email otp : String) (w : σ) :
    Outcome σ (User × String × Option GoError) :=
  let v := ValidateEmail x validator.New email
  if !v.Valid then
    ⟨(User.zero, "", some (NewAppError errcode.ErrInvalidRequest (.validation v.Errors))), w, []⟩
  else
    match s.redisClient.Get Context.Background (activationKey email) w with
    | (.error err, w1) =>
      ⟨(User.zero, "", some (NewAppError errcode.ErrOTPNotFound err)), w1,
        [.redisGet Context.Background (activationKey email)]⟩
    | (.ok val, w1) =>
      if val != otp then
        ⟨(User.zero, "",
            some (NewAppError errcode.ErrOTPInvalid (.errorNew "Invalid otp provided"))), w1,
          [.redisGet Context.Background (activationKey email)]⟩
      else
        match s.userRepository.ActivateUser email w1 with
        | (.error err, w2) =>
          ⟨(User.zero, "", some (NewAppError errcode.ErrInternal err)), w2,
            [.redisGet Context.Background (activationKey email),
             .runAsync (.delActivation (activationKey email)),
             .repoActivateUser email]⟩
        | (.ok user, w2) =>
          match s.tokenMaker.CreateToken user.Email (24 * Hour) w2 with
          | ((_, some err), w3) =>
            ⟨(User.zero, "", some (NewAppError errcode.ErrLoginRedirect err)), w3,
              [.redisGet Context.Background (activationKey email),
               .runAsync (.delActivation (activationKey email)),
               .repoActivateUser email,
               .createToken user.Email (24 * Hour)]⟩
          | ((token, none), w3) =>
            ⟨(user, token, none), w3,
              [.redisGet Context.Background (activationKey email),
               .runAsync (.delActivation (activationKey email)),
               .repoActivateUser email,
               .createToken user.Email (24 * Hour)]⟩

/-- The method `(*UserService).ResendCode`. -/
def ResendCode {σ : Type} (s : UserService σ) (x : Externals σ) (email : String) (w : σ) :
    Outcome σ (Option GoError) :=
  let v := ValidateEmail x validator.New email
  if !v.Valid then
    ⟨some (NewAppError errcode.ErrInvalidRequest (.validation v.Errors)), w, []⟩
  else
    match verification.GenerateOTP x w with
    | (.error err, w1) => ⟨some (NewAppError errcode.ErrAccountCreated err), w1, []⟩
    | (.ok otp, w1) =>
      let ctx := Context.WithTimeout (2 * Second)
      match s.redisClient.Set ctx (activationKey email) otp (15 * Minute) w1 with
      | (some err, w2) =>
        ⟨some (NewAppError errcode.ErrAccountCreated err), w2,
          [.redisSet ctx (activationKey email) otp (15 * Minute)]⟩
      | (none, w2) =>
        match s.userRepository.GetUserIDByEmail email w2 with
        | (.error err, w3) =>
          if errorsIs err .ErrNotFound then
            ⟨some (NewAppError errcode.ErrNotFound err), w3,
              [.redisSet ctx (activationKey email) otp (15 * Minute),
               .repoGetUserIDByEmail email]⟩
          else
            ⟨some (NewAppError errcode.ErrInternal err), w3,
              [.redisSet ctx (activationKey email) otp (15 * Minute),
               .repoGetUserIDByEmail email]⟩
        | (.ok userID, w3) =>
          ⟨none, w3,
            [.redisSet ctx (activationKey email) otp (15 * Minute),
             .repoGetUserIDByEmail email,
             .runAsync (.sendWelcome email otp userID)]⟩

/-- The method `(*UserService).UserSignIn`. -/
def UserSignIn {σ : Type} (s : UserService σ) (x : Externals σ) (email password : String)
    (w : σ) : Outcome σ (String × Option GoError) :=
  let v := ValidateEmail x validator.New email
  let v := ValidatePasswordPlaintext v password
  if !v.Valid then
    ⟨("", some (NewAppError errcode.ErrInvalidRequest (.validation v.Errors))), w, []⟩
  else
    match s.userRepository.GetUserByEmail email w with
    | (.error err, w1) =>
      if errorsIs err .ErrNotFound then
        ⟨("", some (NewAppError errcode.ErrNotFound err)), w1, [.repoGetUserByEmail email]⟩
      else
        ⟨("", some (NewAppError errcode.ErrInternal err)), w1, [.repoGetUserByEmail email]⟩
    | (.ok user, w1) =>
      match Password.Matches x user.Password password with
      | (_, some err) =>
        ⟨("", some (NewAppError errcode.ErrInternal err)), w1, [.repoGetUserByEmail email]⟩
      | (false, none) =>
        ⟨("", some (NewAppError errcode.ErrInvalidPassword (.errorNew "invalid password"))), w1,
          [.repoGetUserByEmail email]⟩
      | (true, none) =>
        match s.tokenMaker.CreateToken user.Email (24 * Hour) w1 with
        | (r, w2) => ⟨r, w2, [.repoGetUserByEmail email, .createToken user.Email (24 * Hour)]⟩

/-- The method `(*UserService).GetUser`. -/
def GetUser {σ : Type} (s : UserService σ) (x : Externals σ) (email : String) (w : σ) :
    Outcome σ (User × Option GoError) :=
  let v := ValidateEmail x validator.New email
  if !v.Valid then
    ⟨(User.zero, some (NewAppError errcode.ErrInvalidRequest (.validation v.Errors))), w, []⟩
  else
    match s.userRepository.GetUserByEmail email w with
    | (.error err, w1) =>
      if errorsIs err .ErrNotFound then
        ⟨(User.zero, some (NewAppError errcode.ErrNotFound err)), w1,
          [.repoGetUserByEmail email]⟩
      else
        ⟨(User.zero, some (NewAppError errcode.ErrInternal err)), w1,
          [.repoGetUserByEmail email]⟩
    | (.ok user, w1) => ⟨(user, none), w1, [.repoGetUserByEmail email]⟩

/-- The body of a closure handed to `RunAsync`; a failure is logged and nothing is returned. -/
def runTask {σ : Type} (s : UserService σ) (task : AsyncTask) (w : σ) : Outcome σ Unit :=
  match task with
  | .delActivation key =>
    ⟨(), (s.redisClient.Del Context.Background key w).2, [.redisDel Context.Background key]⟩
  | .sendWelcome recipient otp userID =>
    let data : MailData := { activationToken := otp, userID := userID }
    ⟨(), (s.userAdapter.SendMail recipient "user_welcome.tmpl" data w).2,
      [.sendMail recipient "user_welcome.tmpl" data]⟩

/-- The closures handed to `RunAsync` in a call log, in the order of the calls. -/
def scheduled : List Call → List AsyncTask
  | [] => []
  | .runAsync task :: rest => task :: scheduled rest
  | _ :: rest => scheduled rest

/-- The world after the given closures have run to completion, one after the other. -/
def runTasks {σ : Type} (s : UserService σ) : List AsyncTask → σ → σ
  | [], w => w
  | task :: rest, w => runTasks s rest (runTask s task w).world

/-- The world an outcome leaves once the background tasks it scheduled have all run. -/
def drain {σ α : Type} (s : UserService σ) (o : Outcome σ α) : σ :=
  runTasks s (scheduled o.calls) o.world

end services

/-! ## Package `email`: the mailer -/

namespace email

/-- The `*gomail.Message` that `Send` builds: the headers `To`, `From`, `Subject`, the plain
body and the HTML alternative. -/
structure Message where
  To : String
  From : String
  Subject : String
  plainBody : String
  htmlBody : String
deriving DecidableEq, Repr

/-- What `Send` does once the message is built: a delivery attempt, or a pause. -/
inductive Step
  | dialAndSend (msg : Message)
  | sleep (d : Nat)
deriving DecidableEq, Repr

/-- The struct `Mailer`, with the library calls of `Send`. -/
structure Mailer (σ : Type) where
  /-- the call `m.dialer.DialAndSend(msg)` -/
  DialAndSend : Message → σ → Option GoError × σ
  sender : String
  /-- the call `template.New("email").ParseFS(templateFS, pattern)`; the template it yields
  is run by `ExecuteTemplate(buf, name, data)`, here a function of `name` and `data` -/
  ParseFS : String → Except GoError (String → MailData → Except GoError String)

/-- What a run of `Send` leaves: the returned error, the world, the steps taken. -/
structure SendOutcome (σ : Type) where
  err : Option GoError
  world : σ
  steps : List Step

/-- The loop `for i := 0; i <= 3; i++` of `Send`, entered with the counter at `i` and the
variable `err` as given. -/
def Mailer.retry {σ : Type} (m : Mailer σ) (msg : Message) (i : Nat) (err : Option GoError)
    (w : σ) : SendOutcome σ :=
  if i ≤ 3 then
    match m.DialAndSend msg w with
    | (none, w1) => ⟨none, w1, [.dialAndSend msg]⟩
    | (some e, w1) =>
      let r := m.retry msg (i + 1) (some e) w1
      ⟨r.err, r.world, .dialAndSend msg :: .sleep (500 * Millisecond) :: r.steps⟩
  else ⟨err, w, []⟩
termination_by 4 - i

/-- The method `Mailer.Send`. -/
def Mailer.Send {σ : Type} (m : Mailer σ) (recipient templateFile : String) (data : MailData)
    (w : σ) : SendOutcome σ :=
  match m.ParseFS ("templates/" ++ templateFile) with
  | .error err => ⟨some err, w, []⟩
  | .ok tmpl =>
    match tmpl "subject" data with
    | .error err => ⟨some err, w, []⟩
    | .ok subject =>
      match tmpl "plainBody" data with
      | .error err => ⟨some err, w, []⟩
      | .ok plainBody =>
        match tmpl "htmlBody" data with
        | .error err => ⟨some err, w, []⟩
        | .ok htmlBody =>
          m.retry { To := recipient, From := m.sender, Subject := subject,
                    plainBody := plainBody, htmlBody := htmlBody } 0 none w

/-- The world before delivery attempt number `k` (counted from zero), the earlier ones having
failed. -/
def Mailer.worldBefore {σ : Type} (m : Mailer σ) (msg : Message) (w : σ) : Nat → σ
  | 0 => w
  | k + 1 => (m.DialAndSend msg (m.worldBefore msg w k)).2

/-- The outcome of delivery attempt number `k` (counted from zero). -/
def Mailer.attempt {σ : Type} (m : Mailer σ) (msg : Message) (w : σ) (k : Nat) :
    Option GoError :=
  (m.DialAndSend msg (m.worldBefore msg w k)).1

/-- The number of delivery attempts among the steps. -/
def attempts : List Step → Nat
  | [] => 0
  | .dialAndSend _ :: rest => attempts rest + 1
  | .sleep _ :: rest => attempts rest

end email

namespace adapters

/-- The method `(*EmailAdapter).SendMail`, which hands over to `Mailer.Send`. -/
def NewEmailAdapter {σ : Type} (mailer : email.Mailer σ) : EmailSender σ :=
  { SendMail := fun recipient templateFile data w =>
      ((mailer.Send recipient templateFile data w).err,
        (mailer.Send recipient templateFile data w).world) }

end adapters

/-! ## Package `authentication`: the token makers -/

namespace authentication

/-- Modelled from the spec: the struct `Payload` is used by the tests but its file is not among
the sources. "Payload: random identifier, subject (email), issued-at timestamp, expires-at
timestamp"; the tests read the fields `ID`, `Username`, `IssuedAt` and `ExpiredAt`. -/
structure Payload where
  ID : Nat
  Username : String
  IssuedAt : Int
  ExpiredAt : Int
deriving DecidableEq, Repr

/-- Modelled from the spec: the token encoding of the two makers is not among the sources. It
is "a signed-claims variant" or "a symmetric authenticated-encryption variant": `encode` seals
a payload under a key, `decode` gives the payload back when the token is well formed and
authenticates under the key. A token is an "opaque string encoding a Payload", which the tests
require not to be empty, and "`TokenMaker.verify(TokenMaker.create(subject, d))` returns a
Payload with the same subject": what was sealed under a key opens under that key. -/
structure Codec where
  encode : String → Payload → String
  decode : String → String → Option Payload
  encode_ne_empty : ∀ key payload, encode key payload ≠ ""
  decode_encode : ∀ key payload, decode key (encode key payload) = some payload

/-- Modelled from the spec: the maker types `PasetoMaker` and `JWTMaker` are not among the
sources; a maker holds its key. -/
structure Maker where
  key : String
  codec : Codec

/-- Modelled from the spec: `NewPasetoMaker` is called by `app.New` and the tests but is not
among the sources. "The key must be exactly one fixed length (32 bytes for a 256-bit key) -
constructing a maker with any other key length fails with `InvalidKeySize` before any token
is issued." -/
def NewPasetoMaker (codec : Codec) (symmetricKey : String) : Except GoError Maker :=
  if symmetricKey.utf8ByteSize ≠ 32 then .error (.sentinel .ErrInvalidSecretKeySizePaseto)
  else .ok { key := symmetricKey, codec := codec }

/-- Modelled from the spec: `NewJWTMaker` is called by the tests but is not among the sources.
The specification gives both variants the same rule on the key: exactly 32 bytes. -/
def NewJWTMaker (codec : Codec) (secretKey : String) : Except GoError Maker :=
  if secretKey.utf8ByteSize ≠ 32 then .error (.sentinel .ErrInvalidSecretKeySizeJWT)
  else .ok { key := secretKey, codec := codec }

/-- Modelled from the spec: `NewPayload` is called by the tests but is not among the sources.
"`create` embeds a fresh random payload identifier, the subject string, issued-at = now,
expires-at = now + duration"; `id` is the identifier drawn, `now` the clock. -/
def NewPayload (username : String) (duration : Int) (now : Int) (id : Nat) : Payload :=
  { ID := id, Username := username, IssuedAt := now, ExpiredAt := now + duration }

/-- Modelled from the spec: the method `CreateToken` of the makers is not among the sources.
"`create(subject, duration) -> token string | error`": the sealed payload. -/
def Maker.CreateToken (m : Maker) (username : String) (duration : Int) (now : Int) (id : Nat) :
    Except GoError String :=
  .ok (m.codec.encode m.key (NewPayload username duration now id))

/-- Modelled from the spec: the method `VerifyToken` of the makers is not among the sources.
"`verify` fails with `InvalidToken` when the token is malformed, the signature/MAC does not
authenticate ...; `ExpiredToken` when the decoded expires-at is in the past, checked strictly
after successful authentication/decryption." -/
def Maker.VerifyToken (m : Maker) (token : String) (now : Int) : Except GoError Payload :=
  match m.codec.decode m.key token with
  | none => .error (.sentinel .ErrInvalidToken)
  | some payload =>
    if payload.ExpiredAt < now then .error (.sentinel .ErrExpiredToken) else .ok payload

end authentication

/-! ## Package `app` -/

namespace app

/-- The part of `New` that builds the token maker from `cfg.TokenKey.TokenSymmetricKey`; the
rest of `New` wires the collaborators together. -/
def New (codec : authentication.Codec) (tokenSymmetricKey : String) :
    Except GoError authentication.Maker :=
  match authentication.NewPasetoMaker codec tokenSymmetricKey with
  | .error err => .error (.wrapf "cannot create token maker" err)
  | .ok tokenMaker => .ok tokenMaker

end app

/-! ## Package `http`: what the handlers answer to an error -/

namespace http

/-- The map `codeToHTTPStatus`, entry by entry in the order of the source. -/
def codeToHTTPStatus : List (String × Nat) :=
  [(errcode.ErrInvalidRequest, 400), (errcode.ErrUnauthorized, 401), (errcode.ErrForbidden, 403),
   (errcode.ErrNotFound, 404), (errcode.ErrConflict, 409), (errcode.ErrInternal, 500),
   (errcode.ErrEmailAlreadyExists, 409), (errcode.ErrAccountCreated, 201),
   (errcode.ErrOTPNotFound, 404), (errcode.ErrOTPInvalid, 400),
   (errcode.ErrInvalidPassword, 401), (errcode.ErrLoginRedirect, 302)]

/-- The function `statusFromCode`. -/
def statusFromCode (code : String) : Nat :=
  match codeToHTTPStatus.lookup code with
  | some status => status
  | none => 400

/-- The constant `loginHTMLPath`. -/
def loginHTMLPath : String := "../html/login.html"

/-- What a handler writes for an error: a JSON body (`ctx.JSON`) with the keys `error`,
`message` and, for a non-nil error, `details`, or a redirect (`ctx.Redirect`). The key
`request_id` comes from the request and is left out; `details` holds the error whose text is
written. -/
inductive Reply
  | json (statusCode : Nat) (error message : String) (details : Option GoError)
  | redirect (statusCode : Nat) (location : String)
deriving DecidableEq, Repr

/-- The function `respondWithError`. -/
def respondWithError (statusCode : Nat) (errorCode overrideMsg : String)
    (err : Option GoError) : Reply :=
  let msg := errcode.GetErrorMessage errorCode
  let msg := if overrideMsg != "" then overrideMsg else msg
  .json statusCode errorCode msg err

/-- The call `errors.As(err, &appErr)` with `appErr *app_errors.AppError`: the first `AppError`
in the chain, with its code. -/
def errorsAsAppError : GoError → Option (String × GoError)
  | .appError code inner => some (code, .appError code inner)
  | .wrapf _ inner => errorsAsAppError inner
  | _ => none

/-- The branch `if err != nil` of `RegisterUserHandler`, `ResendCodeHandler`, `LoginHandler`
and `GetUserHandler`, after the log line. -/
def replyToError (err : GoError) : Reply :=
  match errorsAsAppError err with
  | some (code, appErr) => respondWithError (statusFromCode code) code "" (some appErr)
  | none => respondWithError 500 errcode.ErrInternal "" (some err)

/-- The branch `if err != nil` of `VerifyUserHandler`, after the log line: a status of 302
(`http.StatusFound`) is answered with a redirect, before any message is looked up. -/
def VerifyUserHandler.replyToError (err : GoError) : Reply :=
  match errorsAsAppError err with
  | some (code, appErr) =>
    if statusFromCode code = 302 then .redirect 302 loginHTMLPath
    else respondWithError (statusFromCode code) code "" (some appErr)
  | none => respondWithError 500 errcode.ErrInternal "" (some err)

end http

/-- The handlers of `RegisterUser`, `ResendCode`, `UserSignIn` and `GetUser` answer the error
with a JSON body that carries the dedicated message of its code: the error is an `AppError`
whose code is declared in `errcode` and is not `login_redirect`, the message looked up for
the code is not the fallback, and the body holds that code and that message. -/
def dedicatedReply (err : GoError) : Prop :=
  ∃ code inner, err = GoError.appError code inner ∧ code ∈ errcode.declared ∧
    code ≠ errcode.ErrLoginRedirect ∧ errcode.GetErrorMessage code ≠ "Unexpected error" ∧
    http.replyToError err =
      .json (http.statusFromCode code) code (errcode.GetErrorMessage code) (some err)

/-! ## Predicates on inputs -/

/-- An email passes `ValidateEmail`. -/
def validEmail {σ : Type} (x : Externals σ) (email : String) : Prop :=
  (ValidateEmail x validator.New email).Valid = true

instance {σ : Type} (x : Externals σ) (email : String) : Decidable (validEmail x email) :=
  inferInstanceAs (Decidable (_ = true))

/-- The field rules of a registration request: the checks of `ValidateUser` on the names, the
email and the plaintext password. -/
def validFields {σ : Type} (x : Externals σ) (user : User) (password : String) : Prop :=
  user.FirstName ≠ "" ∧ user.FirstName.utf8ByteSize ≤ 50 ∧
  user.LastName ≠ "" ∧ user.LastName.utf8ByteSize ≤ 50 ∧
  validEmail x user.Email ∧
  8 ≤ password.utf8ByteSize ∧ password.utf8ByteSize ≤ 72

instance {σ : Type} (x : Externals σ) (user : User) (password : String) :
    Decidable (validFields x user password) :=
  inferInstanceAs (Decidable (_ ∧ _))

/-! ## An in-memory instance of the collaborators

A small world on which the theorems below are run at concrete inputs: the expiring store is a
key-value list (expiry is not modelled), the table `users` is a list of rows whose emails are
unique, the random source delivers a prepared list of byte triples. The hash and the email
pattern are stand-ins, chosen only so that the definitions evaluate. -/

namespace mem

/-- The state of the in-memory collaborators. -/
structure World where
  kv : List (String × String)
  users : List User
  nextID : Int
  random : List (Byte × Byte × Byte)
  outbox : List (String × String × MailData)
deriving DecidableEq, Repr

/-- The expiring store as a key-value list: `Set` overwrites, `Get` fails on a missing key,
`Del` removes. -/
def redisClient : RedisClient World :=
  { Set := fun _ key value _ w =>
      (none, { w with kv := (key, value) :: w.kv.filter (fun e => e.1 != key) })
    Get := fun _ key w =>
      match w.kv.lookup key with
      | some value => (.ok value, w)
      | none => (.error (.errorNew "redis: nil"), w)
    Del := fun _ key w => (none, { w with kv := w.kv.filter (fun e => e.1 != key) }) }

/-- The four statements of `user_repo.go` on the list of rows; the email column is unique. -/
def pg : repositories.Postgres World :=
  { insertUser := fun _ firstName lastName email hash w =>
      if w.users.any (fun u => u.Email == email) then (.error (.pgError "23505"), w)
      else
        (.ok (w.nextID, 0),
          { w with
            users := w.users ++ [{ User.zero with UserID := w.nextID, FirstName := firstName,
                                                  LastName := lastName, Email := email,
                                                  Password := ⟨none, hash⟩ }]
            nextID := w.nextID + 1 })
    activateByEmail := fun _ email w =>
      match w.users.find? (fun u => u.Email == email) with
      | none => (.error (.sentinel .pgxErrNoRows), w)
      | some u =>
        (.ok (u.UserID, u.FirstName, u.LastName, u.CreatedAt, true),
          { w with
            users := w.users.map (fun r =>
              if r.Email == email then { r with Activated := true } else r) })
    selectIDByEmail := fun _ email w =>
      match w.users.find? (fun u => u.Email == email) with
      | none => (.error (.sentinel .pgxErrNoRows), w)
      | some u => (.ok u.UserID, w)
    selectByEmail := fun _ email w =>
      match w.users.find? (fun u => u.Email == email) with
      | none => (.error (.sentinel .pgxErrNoRows), w)
      | some u =>
        (.ok (u.UserID, u.FirstName, u.LastName, u.Email, u.Password.Hash, u.Active, u.Activated),
          w) }

/-- A token maker that always succeeds. -/
def tokenMaker : TokenMaker World :=
  { CreateToken := fun username _ w => (("token-for:" ++ username, none), w) }

/-- A token maker that always fails. -/
def tokenMakerDown : TokenMaker World :=
  { CreateToken := fun _ _ w => (("", some (.errorNew "cannot create token")), w) }

/-- A mail sender that files every mail in the outbox. -/
def userAdapter : EmailSender World :=
  { SendMail := fun recipient templateFile data w =>
      (none, { w with outbox := w.outbox ++ [(recipient, templateFile, data)] }) }

/-- A stand-in for the hash of a password. -/
def toyHash (p : String) : List Byte := p.data.reverse.map (fun c => Fin.ofNat c.toNat)

/-- The library functions: hashing rejects a password of more than 72 bytes, as
`bcrypt.GenerateFromPassword` does; the email pattern asks for an `@`. -/
def externals : Externals World :=
  { bcryptGenerateFromPassword := fun p _ w =>
      if p.utf8ByteSize > 72 then
        (.error (.errorNew "bcrypt: password length exceeds 72 bytes"), w)
      else (.ok (toyHash p), w)
    bcryptCompareHashAndPassword := fun hash p =>
      if hash = some (toyHash p) then none
      else some (.sentinel .bcryptErrMismatchedHashAndPassword)
    randRead3 := fun w =>
      match w.random with
      | [] => (.error (.errorNew "no entropy"), w)
      | t :: rest => (.ok t, { w with random := rest })
    emailRX := fun email => email.data.contains '@' }

/-- The service wired as in `app.New`: `UserModel` over the pool, the store, the token
maker. -/
def service : UserService World :=
  { userRepository := repositories.NewUserRepo pg, userAdapter := userAdapter,
    redisClient := redisClient, tokenMaker := tokenMaker }

/-- An empty world whose random source holds one triple, `(0, 4, 210)`: the number 1234. -/
def empty : World :=
  { kv := [], users := [], nextID := 1, random := [(0, 4, 210)], outbox := [] }

/-- The user of the spec's end-to-end example, as the handler builds it. -/
def ann : User :=
  { User.zero with FirstName := "Ann", LastName := "Lee", Email := "ann@example.com" }

/-- The row of that user in the table, once registered with the password `password1`. -/
def annRow : User :=
  { ann with UserID := 1, Password := ⟨none, some (toyHash "password1")⟩ }

/-- The world after `Register("Ann", "Lee", "ann@example.com", "password1")` on `empty`. -/
def registered : World :=
  { kv := [("activation:ann@example.com", "001234")], users := [annRow], nextID := 2,
    random := [], outbox := [] }

/-- An expiring store whose `Set` fails. -/
def redisSetDown : RedisClient World :=
  { redisClient with Set := fun _ _ _ _ w => (some (.errorNew "redis: connection refused"), w) }

/-- The world `registered` after the user has been activated. -/
def activated : World :=
  { registered with users := [{ annRow with Active := true, Activated := true }] }

/-- A password of 73 bytes. -/
def longPassword : String := String.mk (List.replicate 73 'a')

/-- A mailer whose world is the list of the outcomes its next delivery attempts will have; past
the end of the list an attempt succeeds. Its templates render the code. -/
def mailer : email.Mailer (List (Option GoError)) :=
  { DialAndSend := fun _ w =>
      match w with
      | [] => (none, [])
      | outcome :: rest => (outcome, rest)
    sender := "noreply@example.com"
    ParseFS := fun _ => .ok (fun name data => .ok (name ++ ":" ++ data.activationToken)) }

/-- The message `mailer` builds for the registered user. -/
def welcome : email.Message :=
  { To := "ann@example.com", From := "noreply@example.com", Subject := "subject:001234",
    plainBody := "plainBody:001234", htmlBody := "htmlBody:001234" }

/-- A number in unary: as many `i` as the number says, then a dot. -/
def unary (n : Nat) : List Char := List.replicate n 'i' ++ ['.']

/-- Reads a number in unary and returns it with the characters that follow. -/
def readUnary : List Char → Option (Nat × List Char)
  | [] => none
  | c :: rest =>
    if c = 'i' then
      match readUnary rest with
      | some (n, r) => some (n + 1, r)
      | none => none
    else if c = '.' then some (0, rest)
    else none

/-- An integer as two numbers in unary, its positive and its negative part. -/
def writeInt (z : Int) : List Char := unary z.toNat ++ unary (-z).toNat

/-- A stand-in for sealing a payload: the letter `t`, the identifier, the two times, the
subject; the key is not used. -/
def toyEncode (payload : authentication.Payload) : String :=
  String.mk ('t' :: (unary payload.ID ++ (writeInt payload.IssuedAt ++
    (writeInt payload.ExpiredAt ++ payload.Username.data))))

/-- Reads back what `toyEncode` wrote. -/
def toyDecode (token : String) : Option authentication.Payload :=
  match token.data with
  | [] => none
  | _ :: r0 =>
    match readUnary r0 with
    | none => none
    | some (id, r1) =>
      match readUnary r1 with
      | none => none
      | some (a1, r2) =>
        match readUnary r2 with
        | none => none
        | some (b1, r3) =>
          match readUnary r3 with
          | none => none
          | some (a2, r4) =>
            match readUnary r4 with
            | none => none
            | some (b2, r5) =>
              some { ID := id, Username := String.mk r5, IssuedAt := (a1 : Int) - b1,
                     ExpiredAt := (a2 : Int) - b2 }

/-- A stand-in for the token encoding, with the two properties an encoding has. -/
def codec : authentication.Codec :=
  { encode := fun _ payload => toyEncode payload
    decode := fun _ token => toyDecode token
    encode_ne_empty := by
      intro _ payload h
      have hdata := congrArg String.data h
      simp [toyEncode] at hdata
    decode_encode := by
      intro _ payload
      have hread : ∀ (n : Nat) (rest : List Char), readUnary (unary n ++ rest) = some (n, rest) := by
        intro n rest
        induction n with
        | zero => simp [unary, readUnary]
        | succ k ih =>
          have hcons : unary (k + 1) ++ rest = 'i' :: (unary k ++ rest) := by
            simp [unary, List.replicate_succ]
          rw [hcons, readUnary, if_pos rfl, ih]
      simp only [toyDecode, toyEncode, writeInt, List.append_assoc, hread]
      cases payload with
      | mk id u a b =>
        simp only [Option.some.injEq, authentication.Payload.mk.injEq, true_and]
        constructor <;> omega }

/-- A world with no user, in which an earlier code is still pending for `bob@example.com`. -/
def stale : World :=
  { kv := [("activation:bob@example.com", "999999")], users := [], nextID := 1,
    random := [(0, 4, 210)], outbox := [] }

/-- A record store whose lookup of the user id fails for a reason other than a missing row. -/
def userRepositoryDown : UserRepo World :=
  { repositories.NewUserRepo pg with
    GetUserIDByEmail := fun _ w => (.error (.errorNew "connection reset by peer"), w) }

/-- A key of 32 bytes. -/
def key32 : String := "12345678901234567890123456789012"

/-- A key of 31 bytes, as in the tests. -/
def key31 : String := "1234567890123456789012345678901"

end mem

/-! ## Theorems -/

open services

/-- After `AddError` the validator is not valid, whether the key was new or not. -/
theorem Valid_AddError (v : Validator) (key message : String) :
    (v.AddError key message).Valid = false := by
  unfold Validator.AddError Validator.Valid
  split
  · rename_i h
    cases hE : v.Errors with
    | nil => simp [hE] at h
    | cons a l => rfl
  · cases hE : v.Errors <;> simp

/-- A validator is valid after `Check` when it was valid before and the check passed. -/
theorem Valid_Check (v : Validator) (ok : Bool) (key message : String) :
    (v.Check ok key message).Valid = (v.Valid && ok) := by
  unfold Validator.Check
  cases ok
  · simp [Valid_AddError]
  · simp

/-- An email passes `ValidateEmail` when it is not empty and matches the pattern. -/
theorem validEmail_iff {σ : Type} (x : Externals σ) (email : String) :
    validEmail x email ↔ email ≠ "" ∧ x.emailRX email = true := by
  unfold validEmail ValidateEmail
  simp only [Valid_Check]
  simp [validator.New, Validator.Valid]

/-- With `UserModel` as the record store, every `CreateToken` call of `VerifyUser` has the empty
string as its subject: `ActivateUser` scans no email into the user it returns. -/
theorem VerifyUser_createToken_subject {σ : Type} (pg : repositories.Postgres σ)
    (s : UserService σ) (x : Externals σ) (email otp : String) (w : σ)
    (hrepo : s.userRepository = repositories.NewUserRepo pg) (username : String) (d : Nat)
    (hcall : Call.createToken username d ∈ (VerifyUser s x email otp w).calls) :
    username = "" := by
  unfold VerifyUser at hcall
  simp only [hrepo, repositories.NewUserRepo, repositories.ActivateUser] at hcall
  split at hcall
  · simp at hcall
  · split at hcall
    · simp at hcall
    · split at hcall
      · simp at hcall
      · split at hcall
        · simp at hcall
        · rename_i user w2 hact
          have huser : user.Email = "" := by
            split at hact
            · simp at hact
            · simp only [Prod.mk.injEq, Except.ok.injEq] at hact
              rw [← hact.1]
              rfl
          split at hcall <;> simp [huser] at hcall <;> exact hcall.1

/-- C1 (the code departs from the claim): on the registered user of the end-to-end example,
`VerifyUser("ann@example.com", "001234")` succeeds, and with `UserModel.ActivateUser` as the
record store the subject handed to `CreateToken` is the empty string, not the verified email;
the returned user has an empty email as well. -/
theorem VerifyUser_token_subject_not_email :
    (VerifyUser mem.service mem.externals "ann@example.com" "001234" mem.registered).calls =
        [.redisGet Context.Background "activation:ann@example.com",
         .runAsync (.delActivation "activation:ann@example.com"),
         .repoActivateUser "ann@example.com",
         .createToken "" (24 * Hour)] ∧
      (VerifyUser mem.service mem.externals "ann@example.com" "001234" mem.registered).ret =
        ({ User.zero with UserID := 1, FirstName := "Ann", LastName := "Lee", Activated := true },
          "token-for:", none) := by
  constructor <;> rfl

/-- C2: for a valid email whose stored code `val` differs from the submitted `otp`,
`VerifyUser` returns the zero user, the empty token and an `AppError` with code `invalid_otp`;
its only call is the `Get` (no `Del` is run or scheduled, no `ActivateUser`, no
`CreateToken`), and it leaves the world as the `Get` left it. A later `VerifyUser` with the
stored code, the store still answering `val`, passes the comparison: it schedules the delete
and calls `ActivateUser`. -/
theorem VerifyUser_mismatch_invalid_otp {σ : Type} (s : UserService σ) (x : Externals σ)
    (email otp val : String) (w w1 : σ)
    (hvalid : validEmail x email)
    (hget : s.redisClient.Get Context.Background ("activation:" ++ email) w = (.ok val, w1))
    (hne : otp ≠ val) :
    VerifyUser s x email otp w =
        ⟨(User.zero, "", some (.appError "invalid_otp" (.errorNew "Invalid otp provided"))), w1,
          [.redisGet Context.Background ("activation:" ++ email)]⟩ ∧
      ∀ w2, s.redisClient.Get Context.Background ("activation:" ++ email) w1 = (.ok val, w2) →
        (VerifyUser s x email val w1).calls.take 3 =
          [.redisGet Context.Background ("activation:" ++ email),
           .runAsync (.delActivation ("activation:" ++ email)),
           .repoActivateUser email] := by
  unfold validEmail at hvalid
  have hne2 : val ≠ otp := fun h => hne h.symm
  constructor
  · simp [VerifyUser, activationKey, hvalid, hget, hne2, app_errors.NewAppError,
      errcode.ErrOTPInvalid]
  · intro w2 hget2
    simp only [VerifyUser, activationKey, hvalid, hget2]
    simp only [Bool.not_true, Bool.false_eq_true, ↓reduceIte, bne_self_eq_false]
    split
    · rfl
    · split <;> rfl

/-- C2 at a concrete input: a wrong code on the registered user, then the right one. -/
theorem VerifyUser_mismatch_invalid_otp_witness :
    (VerifyUser mem.service mem.externals "ann@example.com" "001235" mem.registered).ret =
        (User.zero, "", some (.appError "invalid_otp" (.errorNew "Invalid otp provided"))) ∧
      (VerifyUser mem.service mem.externals "ann@example.com" "001235" mem.registered).world =
        mem.registered ∧
      (VerifyUser mem.service mem.externals "ann@example.com" "001234" mem.registered).calls.take 3 =
        [.redisGet Context.Background "activation:ann@example.com",
         .runAsync (.delActivation "activation:ann@example.com"),
         .repoActivateUser "ann@example.com"] :=
  have h := VerifyUser_mismatch_invalid_otp mem.service mem.externals "ann@example.com" "001235"
    "001234" mem.registered mem.registered (by decide) (by rfl) (by decide)
  ⟨congrArg Outcome.ret h.1, congrArg Outcome.world h.1, h.2 mem.registered (by rfl)⟩

/-- C3: for a valid email whose `Get` fails, `VerifyUser` returns an `AppError` with code
`otp_not_found` whatever code was submitted, and its only call is the `Get`; and in any run
on a valid email, an `ActivateUser` or `CreateToken` call in the log means that the `Get`
succeeded and returned exactly the submitted code. -/
theorem VerifyUser_absent_otp_not_found {σ : Type} (s : UserService σ) (x : Externals σ)
    (email : String) (w : σ) (hvalid : validEmail x email) :
    (∀ err w1, s.redisClient.Get Context.Background ("activation:" ++ email) w = (.error err, w1) →
      ∀ otp, VerifyUser s x email otp w =
        ⟨(User.zero, "", some (.appError "otp_not_found" err)), w1,
          [.redisGet Context.Background ("activation:" ++ email)]⟩) ∧
    (∀ otp c, c ∈ (VerifyUser s x email otp w).calls →
      (c = .repoActivateUser email ∨ ∃ username d, c = .createToken username d) →
      ∃ w1, s.redisClient.Get Context.Background ("activation:" ++ email) w = (.ok otp, w1)) := by
  unfold validEmail at hvalid
  constructor
  · intro err w1 hget otp
    simp [VerifyUser, activationKey, hvalid, hget, app_errors.NewAppError, errcode.ErrOTPNotFound]
  · intro otp c hc hkind
    simp only [VerifyUser, activationKey, hvalid] at hc
    simp only [Bool.not_true, Bool.false_eq_true, ↓reduceIte] at hc
    split at hc
    · rcases hkind with h | ⟨u, d, h⟩ <;> simp [h] at hc
    · rename_i val w1 hget
      split at hc
      · rcases hkind with h | ⟨u, d, h⟩ <;> simp [h] at hc
      · rename_i heq
        have : val = otp := by simpa using heq
        exact ⟨w1, by rw [hget, this]⟩

/-- C3 at a concrete input: no pending code in the empty world. -/
theorem VerifyUser_absent_otp_not_found_witness :
    (VerifyUser mem.service mem.externals "ann@example.com" "001234" mem.empty).ret =
      (User.zero, "", some (.appError "otp_not_found" (.errorNew "redis: nil"))) :=
  congrArg Outcome.ret
    ((VerifyUser_absent_otp_not_found mem.service mem.externals "ann@example.com" mem.empty
      (by decide)).1 _ _ (by rfl) "001234")

/-- A string of at least eight bytes is not the empty string. -/
theorem ne_empty_of_utf8ByteSize (p : String) (h : 8 ≤ p.utf8ByteSize) : p ≠ "" := by
  intro hp
  subst hp
  simp [String.utf8ByteSize, String.utf8ByteSize.go] at h

/-- Once `Password.Set` has filled the credential, `ValidateUser` does not panic, and its
validator is valid exactly when the field rules hold. -/
theorem ValidateUser_after_Set {σ : Type} (x : Externals σ) (user : User) (p : String)
    (hash : List Byte) :
    ∃ v, ValidateUser x validator.New { user with Password := ⟨some p, some hash⟩ } = some v ∧
      (v.Valid = true ↔ validFields x user p) := by
  refine ⟨_, rfl, ?_⟩
  simp only [ValidatePasswordPlaintext, ValidateEmail, Valid_Check]
  simp only [validFields, validEmail_iff]
  simp only [validator.New, Validator.Valid, List.isEmpty_nil, Bool.true_and, Bool.and_eq_true,
    bne_iff_ne, ne_eq, decide_eq_true_eq]
  constructor
  · rintro ⟨⟨⟨⟨⟨⟨⟨⟨h1, h2⟩, h3⟩, h4⟩, h5⟩, h6⟩, -⟩, h8⟩, h9⟩
    exact ⟨h1, h2, h3, h4, ⟨h5, h6⟩, h8, h9⟩
  · rintro ⟨h1, h2, h3, h4, ⟨h5, h6⟩, h8, h9⟩
    exact ⟨⟨⟨⟨⟨⟨⟨⟨h1, h2⟩, h3⟩, h4⟩, h5⟩, h6⟩, ne_empty_of_utf8ByteSize p h8⟩, h8⟩, h9⟩

/-- The method `Password.Set` when hashing succeeds. -/
theorem Password_Set_ok {σ : Type} (x : Externals σ) (pw : Password) (p : String) (w w1 : σ)
    (hash : List Byte) (hset : x.bcryptGenerateFromPassword p 12 w = (.ok hash, w1)) :
    Password.Set x pw p w = ((none, ⟨some p, some hash⟩), w1) := by
  simp [Password.Set, hset]

/-- The error `NewAppError(code, err)` is tagged when `code` is declared in `errcode`. -/
theorem isTagged_NewAppError (code : String) (err : GoError) (h : code ∈ errcode.declared) :
    isTagged (app_errors.NewAppError code err) :=
  ⟨code, err, rfl, h⟩

/-- C4 (the code departs from the claim): a password of 73 bytes violates the length rule, and
the code's own check `ValidatePasswordPlaintext` rejects it, as `UserSignIn`, which validates
first, shows by answering `invalid_request`. Yet `RegisterUser` returns the hashing error
wrapped by `fmt.Errorf`, which is not an `AppError`, and the handler answers it with status
500: `Password.Set` runs before `ValidateUser`, the hash function rejects the password first,
and the rule of at most 72 bytes is never reached. -/
theorem RegisterUser_long_password_not_invalid_request :
    ¬ validFields mem.externals mem.ann mem.longPassword ∧
      (ValidatePasswordPlaintext validator.New mem.longPassword).Valid = false ∧
      (RegisterUser mem.service mem.externals mem.ann mem.longPassword mem.empty).ret.1 =
        .returned (some (.wrapf "RegisterUser: user.Password.Set"
          (.errorNew "bcrypt: password length exceeds 72 bytes"))) ∧
      app_errors.IsAppError (.wrapf "RegisterUser: user.Password.Set"
          (.errorNew "bcrypt: password length exceeds 72 bytes")) = false ∧
      http.replyToError (.wrapf "RegisterUser: user.Password.Set"
          (.errorNew "bcrypt: password length exceeds 72 bytes")) =
        .json 500 "internal_error" "An unexpected server error occurred"
          (some (.wrapf "RegisterUser: user.Password.Set"
            (.errorNew "bcrypt: password length exceeds 72 bytes"))) ∧
      (UserSignIn mem.service mem.externals "ann@example.com" mem.longPassword
          mem.registered).ret =
        ("", some (.appError "invalid_request"
          (.validation [("password", "must not be more than 72 bytes long")]))) := by
  refine ⟨by decide, by rfl, by rfl, by rfl, by rfl, by rfl⟩

/-- For every `RegisterUser` input that violates a field rule, `RegisterUser` calls no
collaborator, so never `CreateUser`; and when `Password.Set` succeeds on it, it returns an
`AppError` with code `invalid_request`. -/
theorem RegisterUser_invalid_request {σ : Type} (s : UserService σ) (x : Externals σ)
    (user : User) (password : String) (w : σ) (hviol : ¬ validFields x user password) :
    (RegisterUser s x user password w).calls = [] ∧
      ∀ hash w1, x.bcryptGenerateFromPassword password 12 w = (.ok hash, w1) →
        ∃ errors, RegisterUser s x user password w =
          ⟨(.returned (some (.appError "invalid_request" (.validation errors))),
              { user with Password := ⟨some password, some hash⟩ }), w1, []⟩ := by
  have key : ∀ hash w1, x.bcryptGenerateFromPassword password 12 w = (.ok hash, w1) →
      ∃ errors, RegisterUser s x user password w =
        ⟨(.returned (some (.appError "invalid_request" (.validation errors))),
            { user with Password := ⟨some password, some hash⟩ }), w1, []⟩ := by
    intro hash w1 hset
    obtain ⟨v, hv, hiff⟩ := ValidateUser_after_Set x user password hash
    have hnv : v.Valid = false := by
      cases hval : v.Valid
      · rfl
      · exact absurd (hiff.mp hval) hviol
    refine ⟨v.Errors, ?_⟩
    simp [RegisterUser, Password_Set_ok x user.Password password w w1 hash hset, hv, hnv,
      app_errors.NewAppError, errcode.ErrInvalidRequest]
  refine ⟨?_, key⟩
  rcases hgen : x.bcryptGenerateFromPassword password 12 w with ⟨r, w1⟩
  cases r with
  | error err => simp [RegisterUser, Password.Set, hgen]
  | ok hash =>
    obtain ⟨errors, h⟩ := key hash w1 hgen
    rw [h]

/-- The rejection of a registration at a concrete input: a password of five bytes. -/
theorem RegisterUser_invalid_request_witness :
    (RegisterUser mem.service mem.externals mem.ann "short" mem.empty).calls = [] ∧
      (RegisterUser mem.service mem.externals mem.ann "short" mem.empty).world = mem.empty :=
  have h := RegisterUser_invalid_request mem.service mem.externals mem.ann "short" mem.empty
    (by decide)
  ⟨h.1, match h.2 (mem.toyHash "short") mem.empty (by rfl) with
    | ⟨_, h2⟩ => congrArg Outcome.world h2⟩

/-- C5 (as stated, fails): when `CreateToken` fails, `UserSignIn` returns the error of
`CreateToken` as it is, not an `AppError`. -/
theorem UserSignIn_CreateToken_error_not_tagged :
    (UserSignIn { mem.service with tokenMaker := mem.tokenMakerDown } mem.externals
        "ann@example.com" "password1" mem.registered).ret =
      ("", some (.errorNew "cannot create token")) ∧
    ¬ isTagged (.errorNew "cannot create token") := by
  refine ⟨by rfl, ?_⟩
  rintro ⟨code, inner, h, -⟩
  cases h

/-- C5 (amended): every non-nil error returned by `VerifyUser`, `ResendCode` or `GetUser` is an
`AppError` whose code is declared in `errcode`; so is every error of `RegisterUser`, unless
`Password.Set` failed, and then it is the hashing error wrapped by `fmt.Errorf`; so is every
error of `UserSignIn`, unless `CreateToken` failed, and then it is the error of `CreateToken`
unchanged. -/
theorem service_errors_tagged {σ : Type} (s : UserService σ) (x : Externals σ) :
    (∀ email otp w err, (VerifyUser s x email otp w).ret.2.2 = some err → isTagged err) ∧
    (∀ email w err, (ResendCode s x email w).ret = some err → isTagged err) ∧
    (∀ email w err, (GetUser s x email w).ret.2 = some err → isTagged err) ∧
    (∀ user password w err, (RegisterUser s x user password w).ret.1 = .returned (some err) →
      isTagged err ∨
      ∃ e w1, x.bcryptGenerateFromPassword password 12 w = (.error e, w1) ∧
        err = .wrapf "RegisterUser: user.Password.Set" e) ∧
    (∀ email password w err, (UserSignIn s x email password w).ret.2 = some err →
      isTagged err ∨
      ∃ user w1 token w2, s.userRepository.GetUserByEmail email w = (.ok user, w1) ∧
        s.tokenMaker.CreateToken user.Email (24 * Hour) w1 = ((token, some err), w2)) := by
  refine ⟨?_, ?_, ?_, ?_, ?_⟩
  · intro email otp w err h
    unfold VerifyUser at h
    simp only [] at h
    repeat' split at h
    all_goals first
      | (simp only [Option.some.injEq] at h; subst h
         exact isTagged_NewAppError _ _ (by decide))
      | simp at h
  · intro email w err h
    unfold ResendCode at h
    simp only [] at h
    repeat' split at h
    all_goals first
      | (simp only [Option.some.injEq] at h; subst h
         exact isTagged_NewAppError _ _ (by decide))
      | simp at h
  · intro email w err h
    unfold GetUser at h
    simp only [] at h
    repeat' split at h
    all_goals first
      | (simp only [Option.some.injEq] at h; subst h
         exact isTagged_NewAppError _ _ (by decide))
      | simp at h
  · intro user password w err h
    rcases hgen : x.bcryptGenerateFromPassword password 12 w with ⟨r, w1⟩
    cases r with
    | error e =>
      right
      refine ⟨e, w1, rfl, ?_⟩
      simp only [RegisterUser, Password.Set, hgen, RegisterRet.returned.injEq,
        Option.some.injEq] at h
      exact h.symm
    | ok hash =>
      left
      obtain ⟨v, hv, -⟩ := ValidateUser_after_Set x user password hash
      simp only [RegisterUser, Password_Set_ok x user.Password password w w1 hash hgen, hv] at h
      repeat' split at h
      all_goals first
        | (simp only [RegisterRet.returned.injEq, Option.some.injEq] at h; subst h
           exact isTagged_NewAppError _ _ (by decide))
        | simp at h
  · intro email password w err h
    unfold UserSignIn at h
    simp only [] at h
    repeat' split at h
    all_goals first
      | (left; simp only [Option.some.injEq] at h; subst h
         exact isTagged_NewAppError _ _ (by decide))
      | (right
         rename_i user w1 hget _ _
         refine ⟨user, w1, (s.tokenMaker.CreateToken user.Email (24 * Hour) w1).1.1,
           (s.tokenMaker.CreateToken user.Email (24 * Hour) w1).2, hget, ?_⟩
         rw [← h])

/-- C5 (amended) at a concrete input: a wrong code, a short password, an unknown email. -/
theorem service_errors_tagged_witness :
    isTagged (.appError "invalid_otp" (.errorNew "Invalid otp provided")) ∧
      isTagged (.appError "not_found" (.sentinel .ErrNotFound)) :=
  have h := service_errors_tagged mem.service mem.externals
  ⟨h.1 "ann@example.com" "001235" mem.registered _ (by rfl),
   h.2.2.1 "bob@example.com" mem.registered _ (by rfl)⟩

/-- The two checks of `UserSignIn` pass on a valid email and a password of 8 to 72 bytes. -/
theorem validSignIn_Valid {σ : Type} (x : Externals σ) (email password : String)
    (hvalid : validEmail x email)
    (hlen : 8 ≤ password.utf8ByteSize ∧ password.utf8ByteSize ≤ 72) :
    (ValidatePasswordPlaintext (ValidateEmail x validator.New email) password).Valid = true := by
  unfold validEmail at hvalid
  simp only [ValidatePasswordPlaintext, Valid_Check, hvalid]
  simp [hlen.1, hlen.2, ne_empty_of_utf8ByteSize password hlen.1]

/-- C6: for a valid email and a password of 8 to 72 bytes, `UserSignIn` fails with code
`not_found` when the record store reports the user absent; fails with code `invalid_password`,
without calling `CreateToken`, when the user is found and `Matches` returns false; and returns
the two results of `CreateToken(user.Email, 24 hours)` when `Matches` returns true. -/
theorem UserSignIn_outcomes {σ : Type} (s : UserService σ) (x : Externals σ)
    (email password : String) (w : σ) (hvalid : validEmail x email)
    (hlen : 8 ≤ password.utf8ByteSize ∧ password.utf8ByteSize ≤ 72) :
    (∀ err w1, s.userRepository.GetUserByEmail email w = (.error err, w1) →
      errorsIs err .ErrNotFound = true →
      UserSignIn s x email password w =
        ⟨("", some (.appError "not_found" err)), w1, [.repoGetUserByEmail email]⟩) ∧
    (∀ user w1, s.userRepository.GetUserByEmail email w = (.ok user, w1) →
      Password.Matches x user.Password password = (false, none) →
      UserSignIn s x email password w =
        ⟨("", some (.appError "invalid_password" (.errorNew "invalid password"))), w1,
          [.repoGetUserByEmail email]⟩) ∧
    (∀ user w1, s.userRepository.GetUserByEmail email w = (.ok user, w1) →
      Password.Matches x user.Password password = (true, none) →
      UserSignIn s x email password w =
        ⟨(s.tokenMaker.CreateToken user.Email (24 * 60 * 60 * 1000000000) w1).1,
          (s.tokenMaker.CreateToken user.Email (24 * 60 * 60 * 1000000000) w1).2,
          [.repoGetUserByEmail email, .createToken user.Email (24 * 60 * 60 * 1000000000)]⟩) := by
  have hv := validSignIn_Valid x email password hvalid hlen
  have hdur : 24 * Hour = 24 * 60 * 60 * 1000000000 := by decide
  refine ⟨?_, ?_, ?_⟩
  · intro err w1 hget his
    simp [UserSignIn, hv, hget, his, app_errors.NewAppError, errcode.ErrNotFound]
  · intro user w1 hget hm
    simp [UserSignIn, hv, hget, hm, app_errors.NewAppError, errcode.ErrInvalidPassword]
  · intro user w1 hget hm
    simp [UserSignIn, hv, hget, hm, hdur]

/-- C6 at a concrete input: the registered user signs in with the right password. -/
theorem UserSignIn_outcomes_witness :
    (UserSignIn mem.service mem.externals "ann@example.com" "password1" mem.registered).ret =
        ("token-for:ann@example.com", none) ∧
      (UserSignIn mem.service mem.externals "ann@example.com" "password2" mem.registered).ret =
        ("", some (.appError "invalid_password" (.errorNew "invalid password"))) ∧
      (UserSignIn mem.service mem.externals "ann@example.com" "password1" mem.empty).ret =
        ("", some (.appError "not_found" (.sentinel .ErrNotFound))) :=
  ⟨congrArg Outcome.ret
      ((UserSignIn_outcomes mem.service mem.externals "ann@example.com" "password1"
        mem.registered (by decide) (by decide)).2.2 mem.annRow mem.registered (by rfl) (by rfl)),
    congrArg Outcome.ret
      ((UserSignIn_outcomes mem.service mem.externals "ann@example.com" "password2"
        mem.registered (by decide) (by decide)).2.1 mem.annRow mem.registered (by rfl) (by rfl)),
    congrArg Outcome.ret
      ((UserSignIn_outcomes mem.service mem.externals "ann@example.com" "password1"
        mem.empty (by decide) (by decide)).1 (.sentinel .ErrNotFound) mem.empty (by rfl) (by rfl))⟩

/-- C7: `UserSignIn` does not read the activation state. When the record store answers the
lookup with `u1` in one world and with `u2` in another, the two records differing only in the
flags `Active` and `Activated`, and `CreateToken` answers alike in both, then `UserSignIn`
with the same email and password returns the same values and makes the same calls. -/
theorem UserSignIn_ignores_activation {σ : Type} (s : UserService σ) (x : Externals σ)
    (email password : String) (wa wb wa1 wb1 : σ) (u1 u2 : User)
    (h1 : s.userRepository.GetUserByEmail email wa = (.ok u1, wa1))
    (h2 : s.userRepository.GetUserByEmail email wb = (.ok u2, wb1))
    (hflags : u2 = { u1 with Active := u2.Active, Activated := u2.Activated })
    (htoken : (s.tokenMaker.CreateToken u1.Email (24 * Hour) wa1).1 =
      (s.tokenMaker.CreateToken u1.Email (24 * Hour) wb1).1) :
    (UserSignIn s x email password wa).ret = (UserSignIn s x email password wb).ret ∧
      (UserSignIn s x email password wa).calls = (UserSignIn s x email password wb).calls := by
  have hpw : u2.Password = u1.Password := by rw [hflags]
  have hem : u2.Email = u1.Email := by rw [hflags]
  unfold UserSignIn
  simp only [h1, h2, hpw, hem]
  split
  · exact ⟨rfl, rfl⟩
  · split
    · exact ⟨rfl, rfl⟩
    · exact ⟨rfl, rfl⟩
    · exact ⟨htoken, rfl⟩

/-- C7 at a concrete input: the same user before and after activation; the account that was
never verified obtains a token with the correct password. -/
theorem UserSignIn_ignores_activation_witness :
    (UserSignIn mem.service mem.externals "ann@example.com" "password1" mem.registered).ret =
        (UserSignIn mem.service mem.externals "ann@example.com" "password1" mem.activated).ret ∧
      (UserSignIn mem.service mem.externals "ann@example.com" "password1" mem.registered).ret =
        ("token-for:ann@example.com", none) :=
  ⟨(UserSignIn_ignores_activation mem.service mem.externals "ann@example.com" "password1"
      mem.registered mem.activated mem.registered mem.activated
      mem.annRow { mem.annRow with Active := true, Activated := true }
      (by rfl) (by rfl) (by rfl) (by rfl)).1, by rfl⟩

/-- The format `%06d` yields six characters on a number below one million. -/
theorem sprintf06d_length (n : Nat) (h : n < 1000000) :
    (verification.sprintf06d n).length = 6 := by
  have hlen : (Nat.toDigits 10 n).length ≤ 6 :=
    Nat.toDigitsCore_length 10 (by decide) (n + 1) n 6 h (by decide)
  simp only [verification.sprintf06d, String.length, List.length_append, List.length_replicate]
  omega

/-- The number `GenerateOTP` formats is below one million. -/
theorem codeNum_lt (b0 b1 b2 : Byte) : verification.codeNum b0 b1 b2 < 1000000 :=
  Nat.mod_lt _ (by decide)

/-- The method `(*UserModel).CreateUser` answers a unique-constraint violation of the pool,
also a wrapped one, with `models.ErrDuplicateEmail`, and leaves the user as it was. -/
theorem CreateUser_unique_violation {σ : Type} (pg : repositories.Postgres σ) (user : User)
    (w w1 : σ) (err : GoError)
    (hinsert : pg.insertUser (Context.WithTimeout (3 * Second)) user.FirstName user.LastName
      user.Email user.Password.Hash w = (.error err, w1))
    (hcode : errorsAsPgError err = some "23505") :
    repositories.CreateUser pg user w = ((some (.sentinel .ErrDuplicateEmail), user), w1) := by
  simp [repositories.CreateUser, hinsert, hcode]

/-- The method `(*UserModel).CreateUser` on success fills `UserID` and `CreatedAt` from the
returned row and leaves the other fields, the email among them, as they were. -/
theorem CreateUser_scans_id {σ : Type} (pg : repositories.Postgres σ) (user : User)
    (w w1 : σ) (userID createdAt : Int)
    (hinsert : pg.insertUser (Context.WithTimeout (3 * Second)) user.FirstName user.LastName
      user.Email user.Password.Hash w = (.ok (userID, createdAt), w1)) :
    repositories.CreateUser pg user w =
      ((none, { user with UserID := userID, CreatedAt := createdAt }), w1) := by
  simp [repositories.CreateUser, hinsert]

/-- C8: for a valid registration request, when `CreateUser` fails with an error that is
`models.ErrDuplicateEmail` (the value itself, or wrapped), `RegisterUser` returns an `AppError`
with code `email_already_exists`; when it fails with any other error, one with code
`internal_error`. In both cases the `CreateUser` call is the only call: nothing is written to
the expiring store and no mail task is scheduled. -/
theorem RegisterUser_CreateUser_failure {σ : Type} (s : UserService σ) (x : Externals σ)
    (user user1 : User) (password : String) (w w1 w2 : σ) (hash : List Byte) (err : GoError)
    (hset : x.bcryptGenerateFromPassword password 12 w = (.ok hash, w1))
    (hfields : validFields x user password)
    (hcreate : s.userRepository.CreateUser { user with Password := ⟨some password, some hash⟩ }
      w1 = ((some err, user1), w2)) :
    (errorsIs err .ErrDuplicateEmail = true →
      RegisterUser s x user password w =
        ⟨(.returned (some (.appError "email_already_exists" err)), user1), w2,
          [.repoCreateUser { user with Password := ⟨some password, some hash⟩ }]⟩) ∧
    (errorsIs err .ErrDuplicateEmail = false →
      RegisterUser s x user password w =
        ⟨(.returned (some (.appError "internal_error" err)), user1), w2,
          [.repoCreateUser { user with Password := ⟨some password, some hash⟩ }]⟩) ∧
    errorsIs (.sentinel .ErrDuplicateEmail) .ErrDuplicateEmail = true ∧
    (∀ msg inner, errorsIs inner .ErrDuplicateEmail = true →
      errorsIs (.wrapf msg inner) .ErrDuplicateEmail = true) := by
  obtain ⟨v, hv, hiff⟩ := ValidateUser_after_Set x user password hash
  have hvalid : v.Valid = true := hiff.mpr hfields
  refine ⟨?_, ?_, rfl, fun msg inner h => by simpa [errorsIs] using h⟩
  · intro his
    simp [RegisterUser, Password_Set_ok x user.Password password w w1 hash hset, hv, hvalid,
      hcreate, his, app_errors.NewAppError, errcode.ErrEmailAlreadyExists]
  · intro his
    simp [RegisterUser, Password_Set_ok x user.Password password w w1 hash hset, hv, hvalid,
      hcreate, his, app_errors.NewAppError, errcode.ErrInternal]

/-- C8 at a concrete input: a second registration of the same email. -/
theorem RegisterUser_CreateUser_failure_witness :
    (RegisterUser mem.service mem.externals mem.ann "password1" mem.registered).ret.1 =
        .returned (some (.appError "email_already_exists" (.sentinel .ErrDuplicateEmail))) ∧
      (RegisterUser mem.service mem.externals mem.ann "password1" mem.registered).world =
        mem.registered :=
  have h := (RegisterUser_CreateUser_failure mem.service mem.externals mem.ann
    { mem.ann with Password := ⟨some "password1", some (mem.toyHash "password1")⟩ } "password1"
    mem.registered mem.registered mem.registered (mem.toyHash "password1")
    (.sentinel .ErrDuplicateEmail) (by rfl) (by decide) (by rfl)).1 (by rfl)
  ⟨congrArg (fun o => o.ret.1) h, congrArg Outcome.world h⟩

/-- C9: for a valid registration request on which `CreateUser`, the OTP generation and the
store write succeed, `RegisterUser` returns nil and makes exactly three calls: `CreateUser`;
one `Set` with the key `"activation:" + user.Email`, the generated OTP as value and a TTL of
15 minutes; one `RunAsync`. Exactly one task is scheduled, and running it is one `SendMail`
to `user.Email` with template `user_welcome.tmpl` whose data carry that OTP and the user id
`CreateUser` left in the user: the task leaves the world as that `SendMail` leaves it, and so
does the registration once its scheduled task has run. The OTP has six characters. -/
theorem RegisterUser_success {σ : Type} (s : UserService σ) (x : Externals σ)
    (user user1 : User) (password : String) (w w1 w2 w3 w4 : σ) (hash : List Byte)
    (b0 b1 b2 : Byte)
    (hset : x.bcryptGenerateFromPassword password 12 w = (.ok hash, w1))
    (hfields : validFields x user password)
    (hcreate : s.userRepository.CreateUser { user with Password := ⟨some password, some hash⟩ }
      w1 = ((none, user1), w2))
    (hrand : x.randRead3 w2 = (.ok (b0, b1, b2), w3))
    (hstore : s.redisClient.Set (Context.WithTimeout (2 * Second)) ("activation:" ++ user1.Email)
      (verification.sprintf06d (verification.codeNum b0 b1 b2)) (15 * 60 * 1000000000) w3 =
      (none, w4)) :
    RegisterUser s x user password w =
        ⟨(.returned none, user1), w4,
          [.repoCreateUser { user with Password := ⟨some password, some hash⟩ },
           .redisSet (Context.WithTimeout (2 * Second)) ("activation:" ++ user1.Email)
             (verification.sprintf06d (verification.codeNum b0 b1 b2)) (15 * 60 * 1000000000),
           .runAsync (.sendWelcome user1.Email
             (verification.sprintf06d (verification.codeNum b0 b1 b2)) user1.UserID)]⟩ ∧
      scheduled (RegisterUser s x user password w).calls =
        [.sendWelcome user1.Email (verification.sprintf06d (verification.codeNum b0 b1 b2))
          user1.UserID] ∧
      (∀ w5, (runTask s (.sendWelcome user1.Email
          (verification.sprintf06d (verification.codeNum b0 b1 b2)) user1.UserID) w5).calls =
        [.sendMail user1.Email "user_welcome.tmpl"
          { activationToken := verification.sprintf06d (verification.codeNum b0 b1 b2),
            userID := user1.UserID }]) ∧
      (∀ w5, (runTask s (.sendWelcome user1.Email
          (verification.sprintf06d (verification.codeNum b0 b1 b2)) user1.UserID) w5).world =
        (s.userAdapter.SendMail user1.Email "user_welcome.tmpl"
          { activationToken := verification.sprintf06d (verification.codeNum b0 b1 b2),
            userID := user1.UserID } w5).2) ∧
      drain s (RegisterUser s x user password w) =
        (s.userAdapter.SendMail user1.Email "user_welcome.tmpl"
          { activationToken := verification.sprintf06d (verification.codeNum b0 b1 b2),
            userID := user1.UserID } w4).2 ∧
      (verification.sprintf06d (verification.codeNum b0 b1 b2)).length = 6 := by
  obtain ⟨v, hv, hiff⟩ := ValidateUser_after_Set x user password hash
  have hvalid : v.Valid = true := hiff.mpr hfields
  have hdur : 15 * Minute = 15 * 60 * 1000000000 := by decide
  have hrun : RegisterUser s x user password w =
      ⟨(.returned none, user1), w4,
        [.repoCreateUser { user with Password := ⟨some password, some hash⟩ },
         .redisSet (Context.WithTimeout (2 * Second)) ("activation:" ++ user1.Email)
           (verification.sprintf06d (verification.codeNum b0 b1 b2)) (15 * 60 * 1000000000),
         .runAsync (.sendWelcome user1.Email
           (verification.sprintf06d (verification.codeNum b0 b1 b2)) user1.UserID)]⟩ := by
    simp [RegisterUser, Password_Set_ok x user.Password password w w1 hash hset, hv, hvalid,
      hcreate, verification.GenerateOTP, hrand, activationKey, hdur, hstore]
  refine ⟨hrun, ?_, fun w5 => rfl, fun w5 => rfl, ?_, sprintf06d_length _ (codeNum_lt b0 b1 b2)⟩
  · rw [hrun]
    rfl
  · rw [hrun]
    rfl

/-- C9 at a concrete input: the registration of the end-to-end example; once the scheduled
task has run, the outbox holds exactly one mail, to Ann, with the code 001234 and the id 1. -/
theorem RegisterUser_success_witness :
    (RegisterUser mem.service mem.externals mem.ann "password1" mem.empty).ret.1 =
        .returned none ∧
      (RegisterUser mem.service mem.externals mem.ann "password1" mem.empty).world =
        mem.registered ∧
      (RegisterUser mem.service mem.externals mem.ann "password1" mem.empty).calls =
        [.repoCreateUser
            { mem.ann with Password := ⟨some "password1", some (mem.toyHash "password1")⟩ },
         .redisSet (Context.WithTimeout (2 * Second)) "activation:ann@example.com" "001234"
           (15 * 60 * 1000000000),
         .runAsync (.sendWelcome "ann@example.com" "001234" 1)] ∧
      (drain mem.service
          (RegisterUser mem.service mem.externals mem.ann "password1" mem.empty)).outbox =
        [("ann@example.com", "user_welcome.tmpl",
          { activationToken := "001234", userID := 1 })] :=
  have h := RegisterUser_success mem.service mem.externals mem.ann
    { mem.ann with UserID := 1,
                   Password := ⟨some "password1", some (mem.toyHash "password1")⟩ }
    "password1" mem.empty mem.empty
    { mem.empty with users := [mem.annRow], nextID := 2 }
    { mem.empty with users := [mem.annRow], nextID := 2, random := [] }
    mem.registered (mem.toyHash "password1") 0 4 210
    (by rfl) (by decide) (by rfl) (by rfl) (by rfl)
  ⟨congrArg (fun o => o.ret.1) h.1, congrArg Outcome.world h.1, congrArg Outcome.calls h.1,
    congrArg mem.World.outbox h.2.2.2.2.1⟩

/-- C10: for a valid registration request on which `CreateUser` and the OTP generation succeed
and the `Set` of the expiring store fails, `RegisterUser` returns an `AppError` with code
`account_created`; the successful `CreateUser` call has been made, so the record exists, and
the log ends with the failed `Set`: no mail task is scheduled. -/
theorem RegisterUser_store_failure {σ : Type} (s : UserService σ) (x : Externals σ)
    (user user1 : User) (password : String) (w w1 w2 w3 w4 : σ) (hash : List Byte)
    (b0 b1 b2 : Byte) (err : GoError)
    (hset : x.bcryptGenerateFromPassword password 12 w = (.ok hash, w1))
    (hfields : validFields x user password)
    (hcreate : s.userRepository.CreateUser { user with Password := ⟨some password, some hash⟩ }
      w1 = ((none, user1), w2))
    (hrand : x.randRead3 w2 = (.ok (b0, b1, b2), w3))
    (hstore : s.redisClient.Set (Context.WithTimeout (2 * Second)) ("activation:" ++ user1.Email)
      (verification.sprintf06d (verification.codeNum b0 b1 b2)) (15 * 60 * 1000000000) w3 =
      (some err, w4)) :
    RegisterUser s x user password w =
      ⟨(.returned (some (.appError "account_created" err)), user1), w4,
        [.repoCreateUser { user with Password := ⟨some password, some hash⟩ },
         .redisSet (Context.WithTimeout (2 * Second)) ("activation:" ++ user1.Email)
           (verification.sprintf06d (verification.codeNum b0 b1 b2)) (15 * 60 * 1000000000)]⟩ := by
  obtain ⟨v, hv, hiff⟩ := ValidateUser_after_Set x user password hash
  have hvalid : v.Valid = true := hiff.mpr hfields
  have hdur : 15 * Minute = 15 * 60 * 1000000000 := by decide
  simp [RegisterUser, Password_Set_ok x user.Password password w w1 hash hset, hv, hvalid,
    hcreate, verification.GenerateOTP, hrand, activationKey, hdur, hstore,
    app_errors.NewAppError, errcode.ErrAccountCreated]

/-- C10 at a concrete input: the store is down during the registration of the example; the
row is in the table, the code is not in the store, and the error is not `internal_error`. -/
theorem RegisterUser_store_failure_witness :
    (RegisterUser { mem.service with redisClient := mem.redisSetDown } mem.externals mem.ann
        "password1" mem.empty).ret.1 =
        .returned (some (.appError "account_created"
          (.errorNew "redis: connection refused"))) ∧
      (RegisterUser { mem.service with redisClient := mem.redisSetDown } mem.externals mem.ann
        "password1" mem.empty).world =
        { mem.empty with users := [mem.annRow], nextID := 2, random := [] } :=
  have h := RegisterUser_store_failure { mem.service with redisClient := mem.redisSetDown }
    mem.externals mem.ann
    { mem.ann with UserID := 1,
                   Password := ⟨some "password1", some (mem.toyHash "password1")⟩ }
    "password1" mem.empty mem.empty
    { mem.empty with users := [mem.annRow], nextID := 2 }
    { mem.empty with users := [mem.annRow], nextID := 2, random := [] }
    { mem.empty with users := [mem.annRow], nextID := 2, random := [] }
    (mem.toyHash "password1") 0 4 210 (.errorNew "redis: connection refused")
    (by rfl) (by decide) (by rfl) (by rfl) (by rfl)
  ⟨congrArg (fun o => o.ret.1) h, congrArg Outcome.world h⟩

/-- C11: for a valid email whose stored code matches and whose activation succeeds, when
`CreateToken` fails `VerifyUser` returns the zero user, the empty token and an `AppError` with
code `login_redirect`. The log shows the delete scheduled and `ActivateUser` called before
`CreateToken`, and nothing after it: neither is undone, and the world is the one `CreateToken`
left after the activation. -/
theorem VerifyUser_token_failure_login_redirect {σ : Type} (s : UserService σ)
    (x : Externals σ) (email otp token : String) (w w1 w2 w3 : σ) (user : User) (err : GoError)
    (hvalid : validEmail x email)
    (hget : s.redisClient.Get Context.Background ("activation:" ++ email) w = (.ok otp, w1))
    (hact : s.userRepository.ActivateUser email w1 = (.ok user, w2))
    (htok : s.tokenMaker.CreateToken user.Email (24 * 60 * 60 * 1000000000) w2 =
      ((token, some err), w3)) :
    VerifyUser s x email otp w =
      ⟨(User.zero, "", some (.appError "login_redirect" err)), w3,
        [.redisGet Context.Background ("activation:" ++ email),
         .runAsync (.delActivation ("activation:" ++ email)),
         .repoActivateUser email,
         .createToken user.Email (24 * 60 * 60 * 1000000000)]⟩ := by
  unfold validEmail at hvalid
  have hdur : 24 * Hour = 24 * 60 * 60 * 1000000000 := by decide
  simp [VerifyUser, activationKey, hvalid, hget, hact, hdur, htok, app_errors.NewAppError,
    errcode.ErrLoginRedirect]

/-- C11 at a concrete input: the token maker is down when the registered user verifies; the
row is activated all the same. -/
theorem VerifyUser_token_failure_login_redirect_witness :
    (VerifyUser { mem.service with tokenMaker := mem.tokenMakerDown } mem.externals
        "ann@example.com" "001234" mem.registered).ret =
        (User.zero, "", some (.appError "login_redirect" (.errorNew "cannot create token"))) ∧
      (VerifyUser { mem.service with tokenMaker := mem.tokenMakerDown } mem.externals
        "ann@example.com" "001234" mem.registered).world.users =
        [{ mem.annRow with Activated := true }] :=
  have h := VerifyUser_token_failure_login_redirect
    { mem.service with tokenMaker := mem.tokenMakerDown } mem.externals "ann@example.com"
    "001234" "" mem.registered mem.registered
    { mem.registered with users := [{ mem.annRow with Activated := true }] }
    { mem.registered with users := [{ mem.annRow with Activated := true }] }
    { User.zero with UserID := 1, FirstName := "Ann", LastName := "Lee", Activated := true }
    (.errorNew "cannot create token") (by decide) (by rfl) (by rfl) (by rfl)
  ⟨congrArg Outcome.ret h, congrArg (fun o => o.world.users) h⟩

/-- A key that `Del` has removed from the key-value list is not found. -/
theorem lookup_after_Del (key : String) (kv : List (String × String)) :
    (kv.filter (fun e => e.1 != key)).lookup key = none := by
  induction kv with
  | nil => rfl
  | cons e rest ih =>
    rw [List.filter_cons]
    by_cases h : e.1 = key
    · simp [h, ih]
    · have hne : (e.1 != key) = true := by simpa using h
      have hne2 : (key == e.1) = false := by
        simpa using fun h2 : key = e.1 => h h2.symm
      rw [if_pos hne]
      obtain ⟨k, v⟩ := e
      simp only [List.lookup, ih]
      simp only at hne2
      rw [hne2]

/-- C12: with the expiring store a key-value map, and the other collaborators leaving that map
alone, a successful `VerifyUser(email, code)` found the code under `"activation:" + email`;
once the task it scheduled has run, the key is absent, and a second `VerifyUser(email, code)`
fails with code `otp_not_found`. -/
theorem VerifyUser_code_single_use (s : UserService mem.World) (x : Externals mem.World)
    (email otp : String) (w : mem.World)
    (hredis : s.redisClient = mem.redisClient)
    (hrepo : ∀ e w0, (s.userRepository.ActivateUser e w0).2.kv = w0.kv)
    (htoken : ∀ u d w0, (s.tokenMaker.CreateToken u d w0).2.kv = w0.kv)
    (hok : (VerifyUser s x email otp w).ret.2.2 = none) :
    w.kv.lookup ("activation:" ++ email) = some otp ∧
      scheduled (VerifyUser s x email otp w).calls =
        [.delActivation ("activation:" ++ email)] ∧
      (drain s (VerifyUser s x email otp w)).kv.lookup ("activation:" ++ email) = none ∧
      (VerifyUser s x email otp (drain s (VerifyUser s x email otp w))).ret =
        (User.zero, "", some (.appError "otp_not_found" (.errorNew "redis: nil"))) := by
  have hvalid : (ValidateEmail x validator.New email).Valid = true := by
    cases hv : (ValidateEmail x validator.New email).Valid
    · simp [VerifyUser, hv] at hok
    · rfl
  have hdrain : (drain s (VerifyUser s x email otp w)).kv.lookup ("activation:" ++ email) = none ∧
      w.kv.lookup ("activation:" ++ email) = some otp ∧
      scheduled (VerifyUser s x email otp w).calls =
        [.delActivation ("activation:" ++ email)] := by
    unfold VerifyUser at hok ⊢
    simp only [hvalid, hredis, mem.redisClient, activationKey] at hok ⊢
    simp only [Bool.not_true, Bool.false_eq_true, ↓reduceIte] at hok ⊢
    cases hl : List.lookup ("activation:" ++ email) w.kv with
    | none => simp [hl] at hok
    | some val =>
      simp only [hl] at hok ⊢
      by_cases hne : val = otp
      · subst hne
        simp only [bne_self_eq_false, Bool.false_eq_true, ↓reduceIte] at hok ⊢
        have h1 := hrepo email w
        rcases hact : s.userRepository.ActivateUser email w with ⟨r, w2⟩
        rw [hact] at h1 hok
        cases r with
        | error e => simp at hok
        | ok user =>
          simp only at hok ⊢
          have h2 := htoken user.Email (24 * Hour) w2
          rcases hct : s.tokenMaker.CreateToken user.Email (24 * Hour) w2 with ⟨⟨tok, e⟩, w3⟩
          rw [hct] at h2 hok
          cases e with
          | some e => simp at hok
          | none =>
            simp only at h1 h2 ⊢
            refine ⟨?_, trivial, rfl⟩
            simp only [drain, scheduled, runTasks, runTask, hredis, mem.redisClient, h2, h1]
            exact lookup_after_Del _ _
      · have : (val != otp) = true := by simpa using hne
        simp [this] at hok
  obtain ⟨hgone, hfound, htask⟩ := hdrain
  refine ⟨hfound, htask, hgone, ?_⟩
  generalize drain s (VerifyUser s x email otp w) = w' at hgone ⊢
  simp [VerifyUser, hvalid, hredis, mem.redisClient, activationKey, hgone,
    app_errors.NewAppError, errcode.ErrOTPNotFound]

/-- C12 at a concrete input: the registered user verifies, the delete runs, and the same code
is refused. -/
theorem VerifyUser_code_single_use_witness :
    (drain mem.service
        (VerifyUser mem.service mem.externals "ann@example.com" "001234" mem.registered)).kv =
        [] ∧
      (VerifyUser mem.service mem.externals "ann@example.com" "001234"
        (drain mem.service
          (VerifyUser mem.service mem.externals "ann@example.com" "001234"
            mem.registered))).ret =
        (User.zero, "", some (.appError "otp_not_found" (.errorNew "redis: nil"))) :=
  ⟨by rfl,
   (VerifyUser_code_single_use mem.service mem.externals "ann@example.com" "001234"
      mem.registered rfl
      (by
        intro e w0
        simp only [mem.service, repositories.NewUserRepo, repositories.ActivateUser, mem.pg]
        split <;> rename_i h <;> split at h <;> simp at h <;> rw [← h.2])
      (fun _ _ _ => rfl) (by rfl)).2.2.2⟩

/-- A string that is not a declared code has no entry in `errorMessages`: `GetErrorMessage`
answers it with the fallback. -/
theorem GetErrorMessage_undeclared (code : String) (h : code ∉ errcode.declared) :
    errcode.GetErrorMessage code = "Unexpected error" := by
  simp only [errcode.declared, List.mem_cons, List.mem_singleton, not_or, List.not_mem_nil,
    or_false] at h
  obtain ⟨h1, h2, h3, h4, h5, h6, h7, h8, h9, h10, h11, -⟩ := h
  simp only [errcode.GetErrorMessage, errcode.errorMessages, List.lookup, beq_false_of_ne h1,
    beq_false_of_ne h2, beq_false_of_ne h3, beq_false_of_ne h4, beq_false_of_ne h5,
    beq_false_of_ne h6, beq_false_of_ne h7, beq_false_of_ne h8, beq_false_of_ne h9,
    beq_false_of_ne h10, beq_false_of_ne h11]

/-- C15 (as stated, fails): `login_redirect` is a declared code, one that `VerifyUser` emits,
and the map `errorMessages` has no entry for it, so `GetErrorMessage` answers it with the
fallback for unknown codes. The other eleven declared codes have their own message. -/
theorem GetErrorMessage_login_redirect_is_fallback :
    errcode.ErrLoginRedirect ∈ errcode.declared ∧
      errcode.GetErrorMessage errcode.ErrLoginRedirect = "Unexpected error" ∧
      errcode.declared.map errcode.GetErrorMessage =
        ["The request is invalid or malformed",
         "Missing or invalid authentication credentials",
         "You do not have permission to access this resource",
         "The requested resource was not found",
         "A resource conflict occurred (e.g., duplicate data)",
         "An unexpected server error occurred",
         "A user with this email already exists. Please try a different email.",
         "An account was created, but email with activation code was not sent. Please, contact support.",
         "For this user code was not found. Please try again.",
         "The code you provided is invalid",
         "The password you provided is incorrect",
         "Unexpected error"] := by
  refine ⟨by decide, by rfl, by rfl⟩

/-- C15 (amended): every declared code other than `login_redirect` has an entry in
`errorMessages`, and `GetErrorMessage` returns that entry, not the fallback; every string that
is not a declared code gets the fallback. `login_redirect` has no entry, and
`VerifyUserHandler` answers it with a redirect before any message is looked up: every error
`VerifyUser` returns is answered either with that redirect or with a JSON body whose message
is the dedicated message of a declared code. The other four methods never build
`login_redirect`: every `AppError` they build has a declared code other than it, and their
handlers answer it with the dedicated message of that code; the errors they do not build are
the hashing error `RegisterUser` wraps and the error of `CreateToken` that `UserSignIn` hands
back. -/
theorem GetErrorMessage_dedicated {σ : Type} (s : UserService σ) (x : Externals σ) :
    (∀ code, code ∈ errcode.declared → code ≠ errcode.ErrLoginRedirect →
      errcode.errorMessages.lookup code = some (errcode.GetErrorMessage code) ∧
        errcode.GetErrorMessage code ≠ "Unexpected error") ∧
    (∀ code, code ∉ errcode.declared → errcode.GetErrorMessage code = "Unexpected error") ∧
    (∀ inner, http.VerifyUserHandler.replyToError (.appError "login_redirect" inner) =
      .redirect 302 "../html/login.html") ∧
    (∀ email otp w err, (VerifyUser s x email otp w).ret.2.2 = some err →
      http.VerifyUserHandler.replyToError err = .redirect 302 "../html/login.html" ∨
      ∃ code inner, err = .appError code inner ∧ code ∈ errcode.declared ∧
        errcode.GetErrorMessage code ≠ "Unexpected error" ∧
        http.VerifyUserHandler.replyToError err =
          .json (http.statusFromCode code) code (errcode.GetErrorMessage code) (some err)) ∧
    (∀ email w err, (ResendCode s x email w).ret = some err → dedicatedReply err) ∧
    (∀ email w err, (GetUser s x email w).ret.2 = some err → dedicatedReply err) ∧
    (∀ user password w err, (RegisterUser s x user password w).ret.1 = .returned (some err) →
      dedicatedReply err ∨
      ∃ e w1, x.bcryptGenerateFromPassword password 12 w = (.error e, w1) ∧
        err = .wrapf "RegisterUser: user.Password.Set" e) ∧
    (∀ email password w err, (UserSignIn s x email password w).ret.2 = some err →
      dedicatedReply err ∨
      ∃ user w1 token w2, s.userRepository.GetUserByEmail email w = (.ok user, w1) ∧
        s.tokenMaker.CreateToken user.Email (24 * Hour) w1 = ((token, some err), w2)) := by
  refine ⟨?_, GetErrorMessage_undeclared, fun inner => rfl, ?_, ?_, ?_, ?_, ?_⟩
  · intro code hmem hne
    simp only [errcode.declared, List.mem_cons, List.mem_singleton, List.not_mem_nil,
      or_false] at hmem
    rcases hmem with h | h | h | h | h | h | h | h | h | h | h | h
    all_goals first
      | exact absurd h hne
      | (subst h; exact ⟨by rfl, by decide⟩)
  · intro email otp w err h
    unfold VerifyUser at h
    simp only [] at h
    repeat' split at h
    all_goals first
      | (simp only [Option.some.injEq] at h
         subst h
         first
           | (left; rfl)
           | (right; exact ⟨_, _, rfl, by decide, by decide, by rfl⟩))
      | simp at h
  · intro email w err h
    unfold ResendCode at h
    simp only [] at h
    repeat' split at h
    all_goals first
      | (simp only [Option.some.injEq] at h; subst h
         exact ⟨_, _, rfl, by decide, by decide, by decide, by rfl⟩)
      | simp at h
  · intro email w err h
    unfold GetUser at h
    simp only [] at h
    repeat' split at h
    all_goals first
      | (simp only [Option.some.injEq] at h; subst h
         exact ⟨_, _, rfl, by decide, by decide, by decide, by rfl⟩)
      | simp at h
  · intro user password w err h
    rcases hgen : x.bcryptGenerateFromPassword password 12 w with ⟨r, w1⟩
    cases r with
    | error e =>
      right
      refine ⟨e, w1, rfl, ?_⟩
      simp only [RegisterUser, Password.Set, hgen, RegisterRet.returned.injEq,
        Option.some.injEq] at h
      exact h.symm
    | ok hash =>
      left
      obtain ⟨v, hv, -⟩ := ValidateUser_after_Set x user password hash
      simp only [RegisterUser, Password_Set_ok x user.Password password w w1 hash hgen, hv] at h
      repeat' split at h
      all_goals first
        | (simp only [RegisterRet.returned.injEq, Option.some.injEq] at h; subst h
           exact ⟨_, _, rfl, by decide, by decide, by decide, by rfl⟩)
        | simp at h
  · intro email password w err h
    unfold UserSignIn at h
    simp only [] at h
    repeat' split at h
    all_goals first
      | (left; simp only [Option.some.injEq] at h; subst h
         exact ⟨_, _, rfl, by decide, by decide, by decide, by rfl⟩)
      | (right
         rename_i user w1 hget _ _
         refine ⟨user, w1, (s.tokenMaker.CreateToken user.Email (24 * Hour) w1).1.1,
           (s.tokenMaker.CreateToken user.Email (24 * Hour) w1).2, hget, ?_⟩
         rw [← h])

/-- C15 (amended) at a concrete input: `not_found` has its own message, the `login_redirect`
of a verification whose token could not be made is answered with a redirect, a wrong code
and an unknown user are answered with the message of their code. -/
theorem GetErrorMessage_dedicated_witness :
    errcode.GetErrorMessage "not_found" ≠ "Unexpected error" ∧
      http.VerifyUserHandler.replyToError
          (.appError "login_redirect" (.errorNew "cannot create token")) =
        .redirect 302 "../html/login.html" ∧
      http.VerifyUserHandler.replyToError
          (.appError "invalid_otp" (.errorNew "Invalid otp provided")) =
        .json 400 "invalid_otp" "The code you provided is invalid"
          (some (.appError "invalid_otp" (.errorNew "Invalid otp provided"))) ∧
      dedicatedReply (.appError "not_found" (.sentinel .ErrNotFound)) :=
  have h := GetErrorMessage_dedicated { mem.service with tokenMaker := mem.tokenMakerDown }
    mem.externals
  ⟨(h.1 "not_found" (by decide) (by decide)).2,
   h.2.2.1 (.errorNew "cannot create token"), by rfl,
   h.2.2.2.2.2.1 "bob@example.com" mem.registered _ (by rfl)⟩

/-- C16 (the code departs from the claim): the store is down when a code is resent to an email
that has no account. `ResendCode` returns an `AppError` with code `account_created`, not
`internal_error`, before any lookup of the user: the `Set` is its only call. The handler
answers it with status 201 and the message that an account was created. The sibling failure
of the same method, a lookup that fails for another reason than a missing row, is wrapped
into `internal_error`. -/
theorem ResendCode_store_failure_account_created :
    mem.stale.users = [] ∧
      (ResendCode { mem.service with redisClient := mem.redisSetDown } mem.externals
          "bob@example.com" mem.stale).ret =
        some (.appError "account_created" (.errorNew "redis: connection refused")) ∧
      (ResendCode { mem.service with redisClient := mem.redisSetDown } mem.externals
          "bob@example.com" mem.stale).calls =
        [.redisSet (Context.WithTimeout (2 * Second)) "activation:bob@example.com" "001234"
          (15 * 60 * 1000000000)] ∧
      http.replyToError (.appError "account_created" (.errorNew "redis: connection refused")) =
        .json 201 "account_created"
          "An account was created, but email with activation code was not sent. Please, contact support."
          (some (.appError "account_created" (.errorNew "redis: connection refused"))) ∧
      (ResendCode { mem.service with userRepository := mem.userRepositoryDown } mem.externals
          "bob@example.com" mem.stale).ret =
        some (.appError "internal_error" (.errorNew "connection reset by peer")) := by
  refine ⟨by rfl, by rfl, by rfl, by rfl, by rfl⟩

/-- The random source is exhausted when a code is resent to the registered user; `ResendCode`
returns an `AppError` with code `account_created`, not `internal_error`. -/
theorem ResendCode_entropy_failure_not_internal :
    (ResendCode mem.service mem.externals "ann@example.com" mem.registered).ret =
        some (.appError "account_created"
          (.wrapf "cannot generate random bytes" (.errorNew "no entropy"))) ∧
      app_errors.Code (.appError "account_created"
          (.wrapf "cannot generate random bytes" (.errorNew "no entropy"))) ≠
        some "internal_error" := by
  refine ⟨by rfl, by decide⟩

/-- For a valid email, when the OTP generation fails `ResendCode` returns an `AppError` with
code `account_created` around the wrapped error of the random source and calls no
collaborator; when the `Set` of the expiring store fails it returns an `AppError` with code
`account_created` around the error of `Set`, and the `Set` is its only call. -/
theorem ResendCode_dependency_failure {σ : Type} (s : UserService σ) (x : Externals σ)
    (email : String) (w : σ) (hvalid : validEmail x email) :
    (∀ err w1, x.randRead3 w = (.error err, w1) →
      ResendCode s x email w =
        ⟨some (.appError "account_created" (.wrapf "cannot generate random bytes" err)), w1,
          []⟩) ∧
    (∀ b0 b1 b2 w1 err w2, x.randRead3 w = (.ok (b0, b1, b2), w1) →
      s.redisClient.Set (Context.WithTimeout (2 * Second)) ("activation:" ++ email)
        (verification.sprintf06d (verification.codeNum b0 b1 b2)) (15 * 60 * 1000000000) w1 =
        (some err, w2) →
      ResendCode s x email w =
        ⟨some (.appError "account_created" err), w2,
          [.redisSet (Context.WithTimeout (2 * Second)) ("activation:" ++ email)
            (verification.sprintf06d (verification.codeNum b0 b1 b2))
            (15 * 60 * 1000000000)]⟩) := by
  unfold validEmail at hvalid
  have hdur : 15 * Minute = 15 * 60 * 1000000000 := by decide
  constructor
  · intro err w1 hrand
    simp [ResendCode, hvalid, verification.GenerateOTP, hrand, app_errors.NewAppError,
      errcode.ErrAccountCreated]
  · intro b0 b1 b2 w1 err w2 hrand hstore
    simp [ResendCode, hvalid, verification.GenerateOTP, hrand, activationKey, hdur, hstore,
      app_errors.NewAppError, errcode.ErrAccountCreated]

/-- The two failures of `ResendCode` at a concrete input: the store is down when a code is
resent. -/
theorem ResendCode_dependency_failure_witness :
    (ResendCode { mem.service with redisClient := mem.redisSetDown } mem.externals
        "ann@example.com" mem.empty).ret =
      some (.appError "account_created" (.errorNew "redis: connection refused")) :=
  congrArg Outcome.ret
    ((ResendCode_dependency_failure { mem.service with redisClient := mem.redisSetDown }
      mem.externals "ann@example.com" mem.empty (by decide)).2 0 4 210
      { mem.empty with random := [] } (.errorNew "redis: connection refused")
      { mem.empty with random := [] } (by rfl) (by rfl))

/-- In every run of `VerifyUser` the `Get` on the expiring store is made with
`context.Background()`, and so is the `Del` of the task it schedules: neither context has a
deadline. -/
theorem VerifyUser_store_contexts {σ : Type} (s : UserService σ) (x : Externals σ)
    (email otp : String) (w : σ) :
    (∀ ctx key, Call.redisGet ctx key ∈ (VerifyUser s x email otp w).calls →
      ctx.timeout = none) ∧
    (∀ task ∈ scheduled (VerifyUser s x email otp w).calls, ∀ w0 ctx key,
      Call.redisDel ctx key ∈ (runTask s task w0).calls → ctx.timeout = none) := by
  constructor
  · intro ctx key h
    unfold VerifyUser at h
    simp only [] at h
    repeat' split at h
    all_goals
      simp only [List.mem_cons, List.mem_singleton, List.not_mem_nil, Call.redisGet.injEq,
        or_false, false_or, reduceCtorEq] at h
    all_goals first
      | exact absurd h id
      | (rw [h.1]; rfl)
  · intro task h w0 ctx key hc
    unfold VerifyUser at h
    simp only [] at h
    repeat' split at h
    all_goals simp only [scheduled, List.mem_cons, List.mem_singleton, List.not_mem_nil,
      or_false] at h
    all_goals first
      | exact absurd h id
      | (subst h
         simp only [runTask, List.mem_singleton, Call.redisDel.injEq] at hc
         rw [hc.1]; rfl)

/-- C17 (the code departs from the claim): when the registered user verifies, the `Get` on the
expiring store is made with `context.Background()`, which has no deadline, and so is the `Del`
of the scheduled task; the `Set` of `ResendCode` on the same store has a deadline of two
seconds. -/
theorem VerifyUser_Get_and_Del_without_deadline :
    (VerifyUser mem.service mem.externals "ann@example.com" "001234" mem.registered).calls.head? =
        some (.redisGet { timeout := none } "activation:ann@example.com") ∧
      (runTask mem.service (.delActivation "activation:ann@example.com") mem.registered).calls =
        [.redisDel { timeout := none } "activation:ann@example.com"] ∧
      (ResendCode mem.service mem.externals "ann@example.com"
          { mem.registered with random := [(0, 4, 210)] }).calls.head? =
        some (.redisSet { timeout := some (2 * 1000000000) } "activation:ann@example.com"
          "001234" (15 * 60 * 1000000000)) := by
  refine ⟨by rfl, by rfl, by rfl⟩

open email authentication

/-- The loop of `Send` past the last round: the counter is above three, nothing is tried. -/
theorem retry_done {σ : Type} (m : Mailer σ) (msg : Message) (err : Option GoError) (w : σ) :
    m.retry msg 4 err w = ⟨err, w, []⟩ := by
  rw [Mailer.retry]
  simp

/-- One round of the loop of `Send` when the attempt succeeds. -/
theorem retry_success {σ : Type} (m : Mailer σ) (msg : Message) (i : Nat)
    (err : Option GoError) (w w1 : σ) (hi : i ≤ 3) (h : m.DialAndSend msg w = (none, w1)) :
    m.retry msg i err w = ⟨none, w1, [.dialAndSend msg]⟩ := by
  rw [Mailer.retry]
  simp [hi, h]

/-- One round of the loop of `Send` when the attempt fails. -/
theorem retry_failure {σ : Type} (m : Mailer σ) (msg : Message) (i : Nat)
    (err : Option GoError) (e : GoError) (w w1 : σ) (hi : i ≤ 3)
    (h : m.DialAndSend msg w = (some e, w1)) :
    m.retry msg i err w =
      ⟨(m.retry msg (i + 1) (some e) w1).err, (m.retry msg (i + 1) (some e) w1).world,
        .dialAndSend msg :: .sleep (500 * Millisecond) ::
          (m.retry msg (i + 1) (some e) w1).steps⟩ := by
  rw [Mailer.retry]
  simp [hi, h]

/-- The loop of `Send`, written out by the outcomes of the attempts: it ends at the first
attempt that succeeds, and after the fourth at the latest. -/
theorem retry_by_attempts {σ : Type} (m : Mailer σ) (msg : Message) (w : σ) :
    m.retry msg 0 none w =
      match m.attempt msg w 0 with
      | none => ⟨none, m.worldBefore msg w 1, [.dialAndSend msg]⟩
      | some _ =>
        match m.attempt msg w 1 with
        | none =>
          ⟨none, m.worldBefore msg w 2,
            [.dialAndSend msg, .sleep (500 * Millisecond), .dialAndSend msg]⟩
        | some _ =>
          match m.attempt msg w 2 with
          | none =>
            ⟨none, m.worldBefore msg w 3,
              [.dialAndSend msg, .sleep (500 * Millisecond), .dialAndSend msg,
               .sleep (500 * Millisecond), .dialAndSend msg]⟩
          | some _ =>
            match m.attempt msg w 3 with
            | none =>
              ⟨none, m.worldBefore msg w 4,
                [.dialAndSend msg, .sleep (500 * Millisecond), .dialAndSend msg,
                 .sleep (500 * Millisecond), .dialAndSend msg, .sleep (500 * Millisecond),
                 .dialAndSend msg]⟩
            | some e =>
              ⟨some e, m.worldBefore msg w 4,
                [.dialAndSend msg, .sleep (500 * Millisecond), .dialAndSend msg,
                 .sleep (500 * Millisecond), .dialAndSend msg, .sleep (500 * Millisecond),
                 .dialAndSend msg, .sleep (500 * Millisecond)]⟩ := by
  simp only [Mailer.attempt, Mailer.worldBefore]
  rcases h0 : m.DialAndSend msg w with ⟨o0, w1⟩
  cases o0 with
  | none => rw [retry_success m msg 0 none w w1 (by omega) h0]
  | some e0 =>
    rw [retry_failure m msg 0 none e0 w w1 (by omega) h0]
    simp only
    rcases h1 : m.DialAndSend msg w1 with ⟨o1, w2⟩
    cases o1 with
    | none => rw [retry_success m msg 1 (some e0) w1 w2 (by omega) h1]
    | some e1 =>
      rw [retry_failure m msg 1 (some e0) e1 w1 w2 (by omega) h1]
      simp only
      rcases h2 : m.DialAndSend msg w2 with ⟨o2, w3⟩
      cases o2 with
      | none => rw [retry_success m msg 2 (some e1) w2 w3 (by omega) h2]
      | some e2 =>
        rw [retry_failure m msg 2 (some e1) e2 w2 w3 (by omega) h2]
        simp only
        rcases h3 : m.DialAndSend msg w3 with ⟨o3, w4⟩
        cases o3 with
        | none => rw [retry_success m msg 3 (some e2) w3 w4 (by omega) h3]
        | some e3 =>
          rw [retry_failure m msg 3 (some e2) e3 w3 w4 (by omega) h3, retry_done]

/-- C18: once the templates have rendered, `Mailer.Send` makes at most four delivery attempts.
If attempt `k` (counted from zero, `k ≤ 3`) is the first to succeed, `Send` returns nil after
exactly `k + 1` attempts and leaves the world as that attempt left it: no attempt follows a
success. If all four attempts fail, `Send` returns the error of the fourth after exactly four
attempts; and whenever `Send` returns an error, all four attempts have failed and the error is
that of the fourth. -/
theorem Send_retries {σ : Type} (m : Mailer σ) (recipient templateFile : String)
    (data : MailData) (w : σ) (tmpl : String → MailData → Except GoError String)
    (subject plainBody htmlBody : String)
    (hparse : m.ParseFS ("templates/" ++ templateFile) = .ok tmpl)
    (hsubject : tmpl "subject" data = .ok subject)
    (hplain : tmpl "plainBody" data = .ok plainBody)
    (hhtml : tmpl "htmlBody" data = .ok htmlBody) :
    attempts (m.Send recipient templateFile data w).steps ≤ 4 ∧
    (∀ k, k ≤ 3 →
      (∀ j, j < k → m.attempt ⟨recipient, m.sender, subject, plainBody, htmlBody⟩ w j ≠ none) →
      m.attempt ⟨recipient, m.sender, subject, plainBody, htmlBody⟩ w k = none →
      (m.Send recipient templateFile data w).err = none ∧
        attempts (m.Send recipient templateFile data w).steps = k + 1 ∧
        (m.Send recipient templateFile data w).world =
          m.worldBefore ⟨recipient, m.sender, subject, plainBody, htmlBody⟩ w (k + 1)) ∧
    ((∀ j, j ≤ 3 → m.attempt ⟨recipient, m.sender, subject, plainBody, htmlBody⟩ w j ≠ none) →
      (m.Send recipient templateFile data w).err =
          m.attempt ⟨recipient, m.sender, subject, plainBody, htmlBody⟩ w 3 ∧
        attempts (m.Send recipient templateFile data w).steps = 4) ∧
    ((m.Send recipient templateFile data w).err ≠ none →
      (∀ j, j ≤ 3 → m.attempt ⟨recipient, m.sender, subject, plainBody, htmlBody⟩ w j ≠ none) ∧
        (m.Send recipient templateFile data w).err =
          m.attempt ⟨recipient, m.sender, subject, plainBody, htmlBody⟩ w 3) := by
  have hsend : m.Send recipient templateFile data w =
      m.retry ⟨recipient, m.sender, subject, plainBody, htmlBody⟩ 0 none w := by
    simp [Mailer.Send, hparse, hsubject, hplain, hhtml]
  rw [hsend, retry_by_attempts]
  generalize (⟨recipient, m.sender, subject, plainBody, htmlBody⟩ : Message) = msg
  have hall : ∀ (P : Nat → Prop), (∀ j, j ≤ 3 → P j) ↔ (P 0 ∧ P 1 ∧ P 2 ∧ P 3) := by
    intro P
    constructor
    · intro h
      exact ⟨h 0 (by omega), h 1 (by omega), h 2 (by omega), h 3 (by omega)⟩
    · rintro ⟨h0, h1, h2, h3⟩ j hj
      interval_cases j <;> assumption
  refine ⟨?_, ?_, ?_, ?_⟩
  · cases m.attempt msg w 0 <;> cases m.attempt msg w 1 <;> cases m.attempt msg w 2 <;>
      cases m.attempt msg w 3 <;> simp [attempts]
  · intro k hk hprev hsucc
    interval_cases k
    · simp [hsucc, attempts]
    · have p0 := hprev 0 (by omega)
      cases h0 : m.attempt msg w 0 with
      | none => exact absurd h0 p0
      | some e0 => simp [hsucc, attempts]
    · have p0 := hprev 0 (by omega)
      have p1 := hprev 1 (by omega)
      cases h0 : m.attempt msg w 0 with
      | none => exact absurd h0 p0
      | some e0 =>
        cases h1 : m.attempt msg w 1 with
        | none => exact absurd h1 p1
        | some e1 => simp [hsucc, attempts]
    · have p0 := hprev 0 (by omega)
      have p1 := hprev 1 (by omega)
      have p2 := hprev 2 (by omega)
      cases h0 : m.attempt msg w 0 with
      | none => exact absurd h0 p0
      | some e0 =>
        cases h1 : m.attempt msg w 1 with
        | none => exact absurd h1 p1
        | some e1 =>
          cases h2 : m.attempt msg w 2 with
          | none => exact absurd h2 p2
          | some e2 => simp [hsucc, attempts]
  · rw [hall]
    rintro ⟨p0, p1, p2, p3⟩
    cases h0 : m.attempt msg w 0 with
    | none => exact absurd h0 p0
    | some e0 =>
      cases h1 : m.attempt msg w 1 with
      | none => exact absurd h1 p1
      | some e1 =>
        cases h2 : m.attempt msg w 2 with
        | none => exact absurd h2 p2
        | some e2 =>
          cases h3 : m.attempt msg w 3 with
          | none => exact absurd h3 p3
          | some e3 => simp [attempts]
  · rw [hall]
    cases m.attempt msg w 0 <;> cases m.attempt msg w 1 <;> cases m.attempt msg w 2 <;>
      cases m.attempt msg w 3 <;> simp

/-- C18 at a concrete input: two failed deliveries, then a success; and five failures in a
row, of which the fifth is never tried. -/
theorem Send_retries_witness :
    (mem.mailer.Send "ann@example.com" "user_welcome.tmpl"
        { activationToken := "001234", userID := 1 }
        [some (.errorNew "dial 1"), some (.errorNew "dial 2"), none,
         some (.errorNew "dial 4")]).err = none ∧
      attempts (mem.mailer.Send "ann@example.com" "user_welcome.tmpl"
        { activationToken := "001234", userID := 1 }
        [some (.errorNew "dial 1"), some (.errorNew "dial 2"), none,
         some (.errorNew "dial 4")]).steps = 3 ∧
      (mem.mailer.Send "ann@example.com" "user_welcome.tmpl"
        { activationToken := "001234", userID := 1 }
        [some (.errorNew "dial 1"), some (.errorNew "dial 2"), some (.errorNew "dial 3"),
         some (.errorNew "dial 4"), some (.errorNew "dial 5")]).err =
        some (.errorNew "dial 4") ∧
      attempts (mem.mailer.Send "ann@example.com" "user_welcome.tmpl"
        { activationToken := "001234", userID := 1 }
        [some (.errorNew "dial 1"), some (.errorNew "dial 2"), some (.errorNew "dial 3"),
         some (.errorNew "dial 4"), some (.errorNew "dial 5")]).steps = 4 :=
  have h1 := (Send_retries mem.mailer "ann@example.com" "user_welcome.tmpl"
    { activationToken := "001234", userID := 1 }
    [some (.errorNew "dial 1"), some (.errorNew "dial 2"), none, some (.errorNew "dial 4")]
    (fun name data => .ok (name ++ ":" ++ data.activationToken))
    "subject:001234" "plainBody:001234" "htmlBody:001234" rfl (by rfl) (by rfl) (by rfl)).2.1
    2 (by decide) (by intro j hj; interval_cases j <;> simp [Mailer.attempt, Mailer.worldBefore, mem.mailer])
    (by rfl)
  have h2 := (Send_retries mem.mailer "ann@example.com" "user_welcome.tmpl"
    { activationToken := "001234", userID := 1 }
    [some (.errorNew "dial 1"), some (.errorNew "dial 2"), some (.errorNew "dial 3"),
     some (.errorNew "dial 4"), some (.errorNew "dial 5")]
    (fun name data => .ok (name ++ ":" ++ data.activationToken))
    "subject:001234" "plainBody:001234" "htmlBody:001234" rfl (by rfl) (by rfl) (by rfl)).2.2.1
    (by intro j hj; interval_cases j <;> simp [Mailer.attempt, Mailer.worldBefore, mem.mailer])
  ⟨h1.1, h1.2.1, h2.1, h2.2⟩

/-- C19: for every key whose length is not 32 bytes, `NewPasetoMaker` and `NewJWTMaker` fail
with their invalid-key-size error and return no maker, and `app.New` fails with that error
wrapped, so the service is never built and no token is issued with such a key. -/
theorem NewMaker_invalid_key_size (codec : Codec) (key : String)
    (hsize : key.utf8ByteSize ≠ 32) :
    NewPasetoMaker codec key = .error (.sentinel .ErrInvalidSecretKeySizePaseto) ∧
      NewJWTMaker codec key = .error (.sentinel .ErrInvalidSecretKeySizeJWT) ∧
      app.New codec key =
        .error (.wrapf "cannot create token maker" (.sentinel .ErrInvalidSecretKeySizePaseto)) := by
  simp [NewPasetoMaker, NewJWTMaker, app.New, hsize]

/-- C19 at a concrete input: the key of 31 characters of the tests. -/
theorem NewMaker_invalid_key_size_witness :
    NewPasetoMaker mem.codec mem.key31 = .error (.sentinel .ErrInvalidSecretKeySizePaseto) ∧
      NewJWTMaker mem.codec mem.key31 = .error (.sentinel .ErrInvalidSecretKeySizeJWT) :=
  have h := NewMaker_invalid_key_size mem.codec mem.key31 (by decide)
  ⟨h.1, h.2.1⟩

/-- C20: for every subject and every negative duration, `CreateToken` succeeds with a token
that is not empty, and `VerifyToken` on that token, with the same maker and at any later
reading of the clock, returns no payload and exactly the error `ErrExpiredToken`, not
`ErrInvalidToken`. -/
theorem VerifyToken_negative_duration_expired (m : Maker) (username : String)
    (duration now later : Int) (id : Nat) (hneg : duration < 0) (hclock : now ≤ later) :
    m.CreateToken username duration now id =
        .ok (m.codec.encode m.key (NewPayload username duration now id)) ∧
      m.codec.encode m.key (NewPayload username duration now id) ≠ "" ∧
      m.VerifyToken (m.codec.encode m.key (NewPayload username duration now id)) later =
        .error (.sentinel .ErrExpiredToken) ∧
      Sentinel.ErrExpiredToken ≠ Sentinel.ErrInvalidToken := by
  refine ⟨rfl, m.codec.encode_ne_empty _ _, ?_, by decide⟩
  have hpast : (NewPayload username duration now id).ExpiredAt < later := by
    simp only [NewPayload]
    omega
  simp [Maker.VerifyToken, m.codec.decode_encode, hpast]

/-- C20 at a concrete input: a token issued at 5 for a duration of minus 3, verified at the
time of issue. -/
theorem VerifyToken_negative_duration_expired_witness :
    Maker.CreateToken { key := mem.key32, codec := mem.codec } "ann" (-3) 5 7 =
        .ok "tiiiiiii.iiiii..ii..ann" ∧
      Maker.VerifyToken { key := mem.key32, codec := mem.codec } "tiiiiiii.iiiii..ii..ann" 5 =
        .error (.sentinel .ErrExpiredToken) :=
  have h := VerifyToken_negative_duration_expired { key := mem.key32, codec := mem.codec } "ann"
    (-3) 5 5 7 (by decide) (by decide)
  ⟨h.1, h.2.2.1⟩

/-- The digit character of core is the character of the decimal digit. -/
theorem digitChar_eq_decimalDigit (d : Nat) (h : d < 10) :
    Nat.digitChar d = verification.decimalDigit d := by
  interval_cases d <;> rfl

/-- The digits of zero are zeros. -/
theorem fixedDigits_zero (k : Nat) :
    verification.fixedDigits k 0 = List.replicate k '0' := by
  induction k with
  | zero => rfl
  | succ k ih =>
    simp only [verification.fixedDigits, Nat.zero_div, ih, Nat.zero_mod]
    rw [List.replicate_succ']
    rfl

/-- With enough fuel, `Nat.toDigitsCore` puts the digits of `n` in front of the accumulator;
they are at most `k + 1` when `n < 10 ^ (k + 1)`, and filled with zeros on the left up to
`k + 1` characters they are the `k + 1` lowest digits of `n`. -/
theorem toDigitsCore_padded (fuel : Nat) : ∀ (n k : Nat) (acc : List Char),
    n < fuel → n < 10 ^ (k + 1) →
    Nat.toDigitsCore 10 fuel n acc = Nat.toDigitsCore 10 fuel n [] ++ acc ∧
      (Nat.toDigitsCore 10 fuel n []).length ≤ k + 1 ∧
      List.replicate (k + 1 - (Nat.toDigitsCore 10 fuel n []).length) '0' ++
          Nat.toDigitsCore 10 fuel n [] =
        verification.fixedDigits (k + 1) n := by
  induction fuel with
  | zero => intro n k acc h; omega
  | succ fuel ih =>
    intro n k acc hfuel hlt
    simp only [Nat.toDigitsCore]
    by_cases hsmall : n / 10 = 0
    · have hn : n < 10 := by omega
      simp only [hsmall, ↓reduceIte, List.singleton_append, List.length_singleton,
        Nat.add_sub_cancel, true_and]
      refine ⟨by omega, ?_⟩
      simp only [verification.fixedDigits, hsmall, fixedDigits_zero]
    · have hn : 10 ≤ n := by omega
      simp only [hsmall, ↓reduceIte]
      obtain ⟨j, rfl⟩ : ∃ j, k = j + 1 := by
        cases k with
        | zero => omega
        | succ j => exact ⟨j, rfl⟩
      have hdiv : n / 10 < 10 ^ (j + 1) := by
        rw [Nat.div_lt_iff_lt_mul (by omega)]
        rw [pow_succ] at hlt
        exact hlt
      have hfuel2 : n / 10 < fuel := by omega
      obtain ⟨h1, -, -⟩ := ih (n / 10) j (Nat.digitChar (n % 10) :: acc) hfuel2 hdiv
      obtain ⟨h2, hlen, hpad⟩ := ih (n / 10) j [Nat.digitChar (n % 10)] hfuel2 hdiv
      rw [h1, h2]
      refine ⟨by simp, by simp; omega, ?_⟩
      rw [List.length_append, List.length_singleton]
      have hsub : j + 1 + 1 - ((Nat.toDigitsCore 10 fuel (n / 10) []).length + 1) =
          j + 1 - (Nat.toDigitsCore 10 fuel (n / 10) []).length := by omega
      rw [hsub, ← List.append_assoc, hpad]
      rfl

/-- On a number below one million the format `%06d` yields its six lowest decimal digits:
the code and the words of the specification agree. -/
theorem sprintf06d_eq_decimal6 (n : Nat) (h : n < 1000000) :
    verification.sprintf06d n = verification.decimal6 n := by
  have hpad := (toDigitsCore_padded (n + 1) n 5 [] (by omega) (by omega)).2.2
  simp only [verification.sprintf06d, Nat.toDigits, verification.decimal6]
  rw [hpad]
  simp only [verification.fixedDigits, List.nil_append, List.cons_append, Nat.div_div_eq_div_mul]
  have hd : ∀ m, Nat.digitChar (m % 10) = verification.decimalDigit (m % 10) :=
    fun m => digitChar_eq_decimalDigit _ (Nat.mod_lt _ (by decide))
  simp only [hd]

/-- The three bytes put together with shifts and ors are the big-endian number they spell. -/
theorem codeNum_eq (b0 b1 b2 : Byte) :
    verification.codeNum b0 b1 b2 = (b0.val * 65536 + b1.val * 256 + b2.val) % 1000000 := by
  have h0 := b0.isLt
  have h1 := b1.isLt
  have h2 := b2.isLt
  simp only [verification.codeNum, Nat.shiftLeft_eq]
  have e0 : b0.val * 2 ^ 16 % 2 ^ 32 = b0.val * 2 ^ 16 := Nat.mod_eq_of_lt (by omega)
  have e1 : b1.val * 2 ^ 8 % 2 ^ 32 = b1.val * 2 ^ 8 := Nat.mod_eq_of_lt (by omega)
  rw [e0, e1]
  have o1 : b0.val * 2 ^ 16 ||| b1.val * 2 ^ 8 = b0.val * 2 ^ 16 + b1.val * 2 ^ 8 := by
    have := Nat.mul_add_lt_is_or (i := 16) (b := b1.val * 2 ^ 8) (by omega) b0.val
    rw [Nat.mul_comm (2 ^ 16)] at this
    exact this.symm
  have o2 : (b0.val * 2 ^ 16 + b1.val * 2 ^ 8) ||| b2.val =
      b0.val * 2 ^ 16 + b1.val * 2 ^ 8 + b2.val := by
    have := Nat.mul_add_lt_is_or (i := 8) (b := b2.val) (by omega) (b0.val * 2 ^ 8 + b1.val)
    have hm : 2 ^ 8 * (b0.val * 2 ^ 8 + b1.val) = b0.val * 2 ^ 16 + b1.val * 2 ^ 8 := by ring
    rw [hm] at this
    exact this.symm
  rw [o1, o2]
  norm_num

/-- Every character of the six-digit form is a decimal digit. -/
theorem decimal6_digits (n : Nat) (c : Char) (h : c ∈ (verification.decimal6 n).data) :
    c.isDigit = true := by
  have hdigit : ∀ d, d < 10 → (verification.decimalDigit d).isDigit = true := by
    intro d hd
    interval_cases d <;> rfl
  have hmod : ∀ m, (verification.decimalDigit (m % 10)).isDigit = true :=
    fun m => hdigit _ (Nat.mod_lt _ (by decide))
  simp only [verification.decimal6, List.mem_cons, List.mem_singleton, List.not_mem_nil,
    or_false] at h
  rcases h with h | h | h | h | h | h <;> rw [h] <;> exact hmod _

/-- C13: for every triple of bytes the random source delivers, `GenerateOTP` returns the code
the specification gives for them: the decimal representation, left-padded with zeros to six
characters, of `(b0 * 65536 + b1 * 256 + b2) mod 1000000`. It returns an error only when the
read of the random source fails, and then it is that error, wrapped. -/
theorem GenerateOTP_refines_spec {σ : Type} (x : Externals σ) (w : σ) :
    (∀ b0 b1 b2 w1, x.randRead3 w = (.ok (b0, b1, b2), w1) →
      verification.GenerateOTP x w = (.ok (verification.otpOfBytes b0 b1 b2), w1)) ∧
    (∀ err w1, verification.GenerateOTP x w = (.error err, w1) →
      ∃ e, x.randRead3 w = (.error e, w1) ∧ err = .wrapf "cannot generate random bytes" e) := by
  constructor
  · intro b0 b1 b2 w1 hread
    simp only [verification.GenerateOTP, hread, verification.otpOfBytes]
    rw [sprintf06d_eq_decimal6 _ (codeNum_lt b0 b1 b2), codeNum_eq]
  · intro err w1 h
    unfold verification.GenerateOTP at h
    split at h
    · rename_i e w2 hread
      simp only [Prod.mk.injEq, Except.error.injEq] at h
      exact ⟨e, by rw [hread, h.2], h.1.symm⟩
    · simp at h

/-- C13 at a concrete input: the bytes 0, 4, 210 spell 1234. -/
theorem GenerateOTP_refines_spec_witness :
    verification.GenerateOTP mem.externals mem.empty =
      (.ok "001234", { mem.empty with random := [] }) :=
  (GenerateOTP_refines_spec mem.externals mem.empty).1 0 4 210 { mem.empty with random := [] }
    (by rfl)

/-- C14: for every triple of bytes the random source delivers, the string `GenerateOTP`
returns has exactly six characters and each of them is a decimal digit. -/
theorem GenerateOTP_six_digits {σ : Type} (x : Externals σ) (w w1 : σ) (b0 b1 b2 : Byte)
    (hread : x.randRead3 w = (.ok (b0, b1, b2), w1)) :
    verification.GenerateOTP x w =
        (.ok (verification.sprintf06d (verification.codeNum b0 b1 b2)), w1) ∧
      (verification.sprintf06d (verification.codeNum b0 b1 b2)).length = 6 ∧
      ∀ c ∈ (verification.sprintf06d (verification.codeNum b0 b1 b2)).data,
        c.isDigit = true := by
  refine ⟨by simp [verification.GenerateOTP, hread],
    sprintf06d_length _ (codeNum_lt b0 b1 b2), ?_⟩
  intro c hc
  rw [sprintf06d_eq_decimal6 _ (codeNum_lt b0 b1 b2)] at hc
  exact decimal6_digits _ c hc

/-- C14 at a concrete input: the small value 1234 and the largest 24-bit value 16777215. -/
theorem GenerateOTP_six_digits_witness :
    verification.GenerateOTP mem.externals mem.empty =
        (.ok "001234", { mem.empty with random := [] }) ∧
      (verification.sprintf06d (verification.codeNum 0 4 210)).length = 6 ∧
      (verification.GenerateOTP mem.externals { mem.empty with random := [(255, 255, 255)] }).1 =
        .ok "777215" :=
  ⟨(GenerateOTP_six_digits mem.externals mem.empty { mem.empty with random := [] } 0 4 210
      (by rfl)).1,
   (GenerateOTP_six_digits mem.externals mem.empty { mem.empty with random := [] } 0 4 210
      (by rfl)).2.1,
   congrArg Prod.fst
    (GenerateOTP_six_digits mem.externals { mem.empty with random := [(255, 255, 255)] }
      { mem.empty with random := [] } 255 255 255 (by rfl)).1⟩

/-- The code point of the character of a decimal digit. -/
theorem decimalDigit_toNat (d : Nat) (h : d < 10) :
    (verification.decimalDigit d).toNat = 48 + d := by
  interval_cases d <;> rfl

/-- Two numbers below one million with the same six-digit form are equal. -/
theorem decimal6_injective (a b : Nat) (ha : a < 1000000) (hb : b < 1000000)
    (h : verification.decimal6 a = verification.decimal6 b) : a = b := by
  have hdigit : ∀ m n : Nat, verification.decimalDigit (m % 10) =
      verification.decimalDigit (n % 10) → m % 10 = n % 10 := by
    intro m n hmn
    have h1 := congrArg Char.toNat hmn
    rw [decimalDigit_toNat _ (Nat.mod_lt _ (by decide)),
      decimalDigit_toNat _ (Nat.mod_lt _ (by decide))] at h1
    omega
  have hl := congrArg String.data h
  simp only [verification.decimal6, List.cons.injEq, and_true] at hl
  obtain ⟨h5, h4, h3, h2, h1, h0⟩ := hl
  have e5 := hdigit _ _ h5
  have e4 := hdigit _ _ h4
  have e3 := hdigit _ _ h3
  have e2 := hdigit _ _ h2
  have e1 := hdigit _ _ h1
  have e0 := hdigit _ _ h0
  omega

set_option maxRecDepth 4000 in
/-- The byte triples that spell a number with a given remainder modulo one million are as many
as the numbers below `2 ^ 24` with that remainder. -/
theorem card_triples_eq_card_range (c : Nat) :
    ((Finset.univ : Finset (Byte × Byte × Byte)).filter
        (fun t => (t.1.val * 65536 + t.2.1.val * 256 + t.2.2.val) % 1000000 = c)).card =
      ((Finset.range (2 ^ 24)).filter (fun n => n % 1000000 = c)).card := by
  apply Finset.card_bij (fun t _ => t.1.val * 65536 + t.2.1.val * 256 + t.2.2.val)
  · rintro ⟨b0, b1, b2⟩ ht
    simp only [Finset.mem_filter, Finset.mem_univ, true_and] at ht
    simp only [Finset.mem_filter, Finset.mem_range]
    have h0 := b0.isLt
    have h1 := b1.isLt
    have h2 := b2.isLt
    exact ⟨by omega, ht⟩
  · rintro ⟨b0, b1, b2⟩ _ ⟨c0, c1, c2⟩ _ heq
    simp only at heq
    have h0 := b0.isLt
    have h1 := b1.isLt
    have h2 := b2.isLt
    have k0 := c0.isLt
    have k1 := c1.isLt
    have k2 := c2.isLt
    have e0 : b0 = c0 := Fin.ext (by omega)
    have e1 : b1 = c1 := Fin.ext (by omega)
    have e2 : b2 = c2 := Fin.ext (by omega)
    rw [e0, e1, e2]
  · intro n hn
    simp only [Finset.mem_filter, Finset.mem_range] at hn
    refine ⟨(⟨n / 65536, by omega⟩, ⟨n / 256 % 256, by omega⟩, ⟨n % 256, by omega⟩), ?_, ?_⟩
    · simp only [Finset.mem_filter, Finset.mem_univ, true_and]
      have : n / 65536 * 65536 + n / 256 % 256 * 256 + n % 256 = n := by omega
      rw [this]
      exact hn.2
    · simp only
      omega

/-- Below `2 ^ 24` there are 17 numbers with a given remainder under 777216 modulo one million,
and 16 with a given remainder from 777216 on. -/
theorem card_range_mod (c : Nat) (hc : c < 1000000) :
    ((Finset.range (2 ^ 24)).filter (fun n => n % 1000000 = c)).card =
      if c < 777216 then 17 else 16 := by
  have hcount := Nat.count_modEq_card (r := 1000000) (b := 2 ^ 24) (by decide) c
  rw [Nat.count_eq_card_filter_range] at hcount
  have hfilter : (Finset.range (2 ^ 24)).filter (fun n => n % 1000000 = c) =
      (Finset.range (2 ^ 24)).filter (fun n => n ≡ c [MOD 1000000]) := by
    apply Finset.filter_congr
    intro n _
    simp only [Nat.ModEq, Nat.mod_eq_of_lt hc]
  rw [hfilter, hcount, Nat.mod_eq_of_lt hc]
  norm_num
  split_ifs <;> rfl

/-- C21: the codes are not uniform over the `2 ^ 24` byte triples, and the bias is exact: a
code `c` below 777216 is returned on exactly 17 triples, a code from 777216 to 999999 on
exactly 16; in particular every six-digit code is returned on some triple. -/
theorem GenerateOTP_bias (c : Nat) (hc : c < 1000000) :
    (c < 777216 → verification.preimages c = 17) ∧
    (777216 ≤ c → verification.preimages c = 16) ∧
    (∃ b0 b1 b2 : Byte,
      verification.sprintf06d (verification.codeNum b0 b1 b2) = verification.decimal6 c) := by
  have hfilter : (Finset.univ : Finset (Byte × Byte × Byte)).filter
        (fun t => verification.sprintf06d (verification.codeNum t.1 t.2.1 t.2.2) =
          verification.decimal6 c) =
      (Finset.univ : Finset (Byte × Byte × Byte)).filter
        (fun t => (t.1.val * 65536 + t.2.1.val * 256 + t.2.2.val) % 1000000 = c) := by
    apply Finset.filter_congr
    rintro ⟨b0, b1, b2⟩ _
    simp only
    rw [sprintf06d_eq_decimal6 _ (codeNum_lt b0 b1 b2), codeNum_eq]
    constructor
    · intro h
      exact decimal6_injective _ _ (Nat.mod_lt _ (by decide)) hc h
    · intro h
      rw [h]
  have hcard : verification.preimages c = if c < 777216 then 17 else 16 := by
    rw [verification.preimages, hfilter, card_triples_eq_card_range, card_range_mod c hc]
  refine ⟨fun h => by rw [hcard, if_pos h], fun h => by rw [hcard, if_neg (by omega)], ?_⟩
  refine ⟨⟨c / 65536, by omega⟩, ⟨c / 256 % 256, by omega⟩, ⟨c % 256, by omega⟩, ?_⟩
  rw [sprintf06d_eq_decimal6 _ (codeNum_lt _ _ _), codeNum_eq]
  have hdiv : c / 256 / 256 = c / 65536 := Nat.div_div_eq_div_mul c 256 256
  have hsplit : c / 65536 * 65536 + c / 256 % 256 * 256 + c % 256 = c := by omega
  have : (c / 65536 * 65536 + c / 256 % 256 * 256 + c % 256) % 1000000 = c := by
    rw [hsplit]
    exact Nat.mod_eq_of_lt hc
  simp only [this]

/-- C21 at concrete inputs: the code 001234 comes from 17 triples, the code 999999 from 16. -/
theorem GenerateOTP_bias_witness :
    verification.preimages 1234 = 17 ∧ verification.preimages 999999 = 16 :=
  ⟨(GenerateOTP_bias 1234 (by decide)).1 (by decide),
   (GenerateOTP_bias 999999 (by decide)).2.1 (by decide)⟩

/-- C22: `RegisterUser` never ends in the panic of `ValidateUser`. When `Password.Set` fails it
returns before `ValidateUser`; when `Password.Set` succeeds the credential holds the plaintext
and a hash that is not nil, `ValidateUser` returns a validator instead of panicking, and that
validator has checked the length rules: it is valid only if the password has 8 to 72 bytes. -/
theorem RegisterUser_never_panics {σ : Type} (s : UserService σ) (x : Externals σ)
    (user : User) (password : String) (w : σ) :
    (RegisterUser s x user password w).ret.1 ≠ .panicked ∧
    (∀ err w1, x.bcryptGenerateFromPassword password 12 w = (.error err, w1) →
      RegisterUser s x user password w =
        ⟨(.returned (some (.wrapf "RegisterUser: user.Password.Set" err)), user), w1, []⟩) ∧
    (∀ hash w1, x.bcryptGenerateFromPassword password 12 w = (.ok hash, w1) →
      Password.Set x user.Password password w =
          ((none, { plaintext := some password, Hash := some hash }), w1) ∧
        ∃ v, ValidateUser x validator.New
              { user with Password := { plaintext := some password, Hash := some hash } } =
            some v ∧
          (v.Valid = true → 8 ≤ password.utf8ByteSize ∧ password.utf8ByteSize ≤ 72)) := by
  refine ⟨?_, ?_, ?_⟩
  · rcases hgen : x.bcryptGenerateFromPassword password 12 w with ⟨r, w1⟩
    cases r with
    | error err => simp [RegisterUser, Password.Set, hgen]
    | ok hash =>
      obtain ⟨v, hv, -⟩ := ValidateUser_after_Set x user password hash
      intro hp
      simp only [RegisterUser, Password_Set_ok x user.Password password w w1 hash hgen, hv] at hp
      repeat' split at hp
      all_goals simp at hp
  · intro err w1 hgen
    simp [RegisterUser, Password.Set, hgen]
  · intro hash w1 hgen
    obtain ⟨v, hv, hiff⟩ := ValidateUser_after_Set x user password hash
    refine ⟨Password_Set_ok x user.Password password w w1 hash hgen, v, hv, ?_⟩
    intro hvalid
    have hfields := hiff.mp hvalid
    exact ⟨hfields.2.2.2.2.2.1, hfields.2.2.2.2.2.2⟩

/-- C22 at a concrete input: the registration of the example sets the credential. -/
theorem RegisterUser_never_panics_witness :
    Password.Set mem.externals mem.ann.Password "password1" mem.empty =
      ((none, { plaintext := some "password1", Hash := some (mem.toyHash "password1") }),
        mem.empty) :=
  ((RegisterUser_never_panics mem.service mem.externals mem.ann "password1" mem.empty).2.2
    (mem.toyHash "password1") mem.empty (by rfl)).1

/-- C23: `ResendCode` is not atomic. With the expiring store a key-value map, for a valid email
on which the code is generated and the record store then reports no user, `ResendCode` returns
an `AppError` with code `not_found` and schedules no task, so no mail; yet it has made the
`Set` with a TTL of 15 minutes, and the store now holds the fresh code under
`"activation:" + email`, whatever it held before. -/
theorem ResendCode_not_atomic (s : UserService mem.World) (x : Externals mem.World)
    (email : String) (w w1 w3 : mem.World) (b0 b1 b2 : Byte) (err : GoError)
    (hredis : s.redisClient = mem.redisClient)
    (hvalid : validEmail x email)
    (hrand : x.randRead3 w = (.ok (b0, b1, b2), w1))
    (habsent : s.userRepository.GetUserIDByEmail email
      (mem.redisClient.Set (Context.WithTimeout (2 * Second)) ("activation:" ++ email)
        (verification.sprintf06d (verification.codeNum b0 b1 b2)) (15 * 60 * 1000000000) w1).2 =
      (.error err, w3))
    (hnotfound : errorsIs err .ErrNotFound = true)
    (hframe : w3.kv =
      (mem.redisClient.Set (Context.WithTimeout (2 * Second)) ("activation:" ++ email)
        (verification.sprintf06d (verification.codeNum b0 b1 b2)) (15 * 60 * 1000000000) w1).2.kv) :
    ResendCode s x email w =
        ⟨some (.appError "not_found" err), w3,
          [.redisSet (Context.WithTimeout (2 * Second)) ("activation:" ++ email)
            (verification.sprintf06d (verification.codeNum b0 b1 b2)) (15 * 60 * 1000000000),
           .repoGetUserIDByEmail email]⟩ ∧
      scheduled (ResendCode s x email w).calls = [] ∧
      (ResendCode s x email w).world.kv.lookup ("activation:" ++ email) =
        some (verification.sprintf06d (verification.codeNum b0 b1 b2)) := by
  unfold validEmail at hvalid
  have hdur : 15 * Minute = 15 * 60 * 1000000000 := by decide
  have hset : mem.redisClient.Set (Context.WithTimeout (2 * Second)) ("activation:" ++ email)
      (verification.sprintf06d (verification.codeNum b0 b1 b2)) (15 * 60 * 1000000000) w1 =
      (none, (mem.redisClient.Set (Context.WithTimeout (2 * Second)) ("activation:" ++ email)
        (verification.sprintf06d (verification.codeNum b0 b1 b2)) (15 * 60 * 1000000000)
        w1).2) := rfl
  have hrun : ResendCode s x email w =
      ⟨some (.appError "not_found" err), w3,
        [.redisSet (Context.WithTimeout (2 * Second)) ("activation:" ++ email)
          (verification.sprintf06d (verification.codeNum b0 b1 b2)) (15 * 60 * 1000000000),
         .repoGetUserIDByEmail email]⟩ := by
    unfold ResendCode
    simp only [hvalid, verification.GenerateOTP, hrand, activationKey, hdur, hredis]
    rw [hset]
    simp only [habsent, hnotfound]
    simp [app_errors.NewAppError, errcode.ErrNotFound]
  refine ⟨hrun, ?_, ?_⟩
  · rw [hrun]
    rfl
  · rw [hrun]
    simp only [hframe, mem.redisClient, List.lookup, beq_self_eq_true]

/-- C23 at a concrete input: a code is resent to an email without an account; the call fails
with `not_found` and the pending code 999999 has been replaced by 001234. -/
theorem ResendCode_not_atomic_witness :
    (ResendCode mem.service mem.externals "bob@example.com" mem.stale).ret =
        some (.appError "not_found" (.sentinel .ErrNotFound)) ∧
      (ResendCode mem.service mem.externals "bob@example.com" mem.stale).world.kv =
        [("activation:bob@example.com", "001234")] :=
  have h := ResendCode_not_atomic mem.service mem.externals "bob@example.com" mem.stale
    { mem.stale with random := [] }
    { mem.stale with random := [], kv := [("activation:bob@example.com", "001234")] }
    0 4 210 (.sentinel .ErrNotFound) rfl (by decide) (by rfl) (by rfl) (by rfl) (by rfl)
  ⟨congrArg Outcome.ret h.1, congrArg (fun o => o.world.kv) h.1⟩

end SimpleAuth
